import Mathlib

/-!
Verification of the village simulation's economy, needs, social and metrics
code against its specification.  The Python sources are shallowly embedded:
floats become exact rationals (`ℚ`), the one transcendental curve
(`Memory.skill_level`, a saturating exponential) becomes a `Real`-valued
function, dictionaries become insertion-ordered association lists, and
mutation becomes explicit state passing.
-/

namespace VillageSim

/-- Generic association-list lookup, mirroring Python `dict.get` /
insertion-ordered key access (first matching key wins; keys are unique in
every state the program builds). -/
def assocGet {κ α : Type} [DecidableEq κ] : List (κ × α) → κ → Option α
  | [], _ => none
  | (k, v) :: rest, key => if k = key then some v else assocGet rest key

/-- `dict[k] = v` on an association list: replace the first entry with key
`k`, or append a new entry at the end (Python dicts keep insertion order). -/
def assocSet {κ α : Type} [DecidableEq κ] : List (κ × α) → κ → α → List (κ × α)
  | [], k, v => [(k, v)]
  | (k', v') :: rest, k, v =>
    if k' = k then (k, v) :: rest else (k', v') :: assocSet rest k v

/-- `del dict[k]` on an association list: drop the first entry with key `k`. -/
def assocDel {κ α : Type} [DecidableEq κ] : List (κ × α) → κ → List (κ × α)
  | [], _ => []
  | (k', v') :: rest, k => if k' = k then rest else (k', v') :: assocDel rest k

theorem assocGet_mem {κ α : Type} [DecidableEq κ] {l : List (κ × α)} {k : κ} {v : α}
    (h : assocGet l k = some v) : (k, v) ∈ l := by
  induction l with
  | nil => simp [assocGet] at h
  | cons p rest ih =>
    obtain ⟨k', v'⟩ := p
    by_cases hk : k' = k
    · subst hk
      simp [assocGet] at h
      subst h
      exact List.mem_cons_self _ _
    · simp [assocGet, hk] at h
      exact List.mem_cons_of_mem _ (ih h)

-- =====================================================================
-- core/config.py — tunable constants used by the embedded components
-- =====================================================================

def BASE_DAILY_FOOD_NEED : ℚ := 3/2
def SURVIVAL_CRITICAL_THRESHOLD : ℚ := 15/100
def SKILL_LEARNING_RATE : ℚ := 50
def FAMILY_INVENTORY_CAPACITY : ℚ := 200
def CARRY_CAPACITY_BASE : ℚ := 30
def HABIT_INERTIA_BONUS : ℚ := 5/100
def SATISFICE_THRESHOLD : ℚ := 6/10
def TRADE_SURPLUS_DAYS_THRESHOLD : ℚ := 5
def TRADE_DEFICIT_DAYS_THRESHOLD : ℚ := 3
def TRADE_TRUST_WEIGHT : ℚ := 3/10
def TRADE_PERSONALITY_MARGIN : ℚ := 15/100
def TRADE_VALUE_FOOD_HUNGRY_MULTIPLIER : ℚ := 3
def TRADE_DIMINISHING_SURPLUS_FACTOR : ℚ := 1/2

-- =====================================================================
-- economy/inventory.py — item catalog
-- =====================================================================

/-- One `ITEM_CATALOG` entry.  Python stores these as dicts with optional
keys; a missing key is `none` and every accessor applies the default used
at its own call site (`cat.get(key, default)`). -/
structure CatalogEntry where
  weight : Option ℚ := none
  perishable : Option Bool := none
  perish_days : Option ℕ := none
  food_value : Option ℚ := none
  tool_type : Option String := none
  max_durability : Option ℚ := none
  warmth_value : Option ℚ := none
  heal_value : Option ℚ := none
deriving DecidableEq

/-- `ITEM_CATALOG` from economy/inventory.py, in source order. -/
def ITEM_CATALOG : List (String × CatalogEntry) :=
  [ ("berries", { weight := some (1/2), perishable := some true, perish_days := some 5, food_value := some (1/2) }),
    ("raw_meat", { weight := some 2, perishable := some true, perish_days := some 3, food_value := some 1 }),
    ("cooked_meat", { weight := some (3/2), perishable := some true, perish_days := some 7, food_value := some (3/2) }),
    ("dried_meat", { weight := some 1, perishable := some true, perish_days := some 60, food_value := some (6/5) }),
    ("grain", { weight := some 1, perishable := some true, perish_days := some 180, food_value := some (4/5) }),
    ("bread", { weight := some (1/2), perishable := some true, perish_days := some 5, food_value := some 1 }),
    ("fish", { weight := some (3/2), perishable := some true, perish_days := some 2, food_value := some 1 }),
    ("dried_fish", { weight := some (4/5), perishable := some true, perish_days := some 90, food_value := some 1 }),
    ("vegetables", { weight := some 1, perishable := some true, perish_days := some 10, food_value := some (1/2) }),
    ("timber", { weight := some 10, perishable := some false }),
    ("stone", { weight := some 15, perishable := some false }),
    ("clay", { weight := some 5, perishable := some false }),
    ("iron_ore", { weight := some 12, perishable := some false }),
    ("plant_fiber", { weight := some (1/2), perishable := some false }),
    ("animal_hide", { weight := some 3, perishable := some true, perish_days := some 30 }),
    ("tanned_leather", { weight := some 2, perishable := some false }),
    ("firewood", { weight := some 5, perishable := some false }),
    ("stone_axe", { weight := some 2, perishable := some false, tool_type := some "axe", max_durability := some 50 }),
    ("stone_knife", { weight := some (1/2), perishable := some false, tool_type := some "knife", max_durability := some 40 }),
    ("wooden_spear", { weight := some 2, perishable := some false, tool_type := some "spear", max_durability := some 30 }),
    ("fishing_rod", { weight := some 1, perishable := some false, tool_type := some "fishing", max_durability := some 40 }),
    ("bow", { weight := some (3/2), perishable := some false, tool_type := some "ranged", max_durability := some 60 }),
    ("arrows", { weight := some (1/10), perishable := some false, tool_type := some "ammo" }),
    ("hoe", { weight := some (5/2), perishable := some false, tool_type := some "farming", max_durability := some 50 }),
    ("hammer", { weight := some 3, perishable := some false, tool_type := some "construction", max_durability := some 70 }),
    ("pickaxe", { weight := some 4, perishable := some false, tool_type := some "mining", max_durability := some 60 }),
    ("rope", { weight := some 1, perishable := some false }),
    ("basket", { weight := some (1/2), perishable := some false }),
    ("clay_pot", { weight := some 2, perishable := some false }),
    ("cloth", { weight := some (1/2), perishable := some false }),
    ("clothing", { weight := some 1, perishable := some false, warmth_value := some (3/10) }),
    ("medicine", { weight := some (1/5), perishable := some true, perish_days := some 30, heal_value := some (3/10) }) ]

/-- `ITEM_CATALOG.get(t, {}).get(field, default)`. -/
def catalogField {α : Type} (t : String) (f : CatalogEntry → Option α) (dflt : α) : α :=
  ((assocGet ITEM_CATALOG t).bind f).getD dflt

/-- `get_tool_type`: `ITEM_CATALOG.get(item_type, {}).get("tool_type")`. -/
def get_tool_type (item_type : String) : Option String :=
  (assocGet ITEM_CATALOG item_type).bind (·.tool_type)

/-- `food_items()`: all catalog keys that carry a `food_value` entry. -/
def food_items : List String :=
  ITEM_CATALOG.filterMap (fun p => if p.2.food_value.isSome then some p.1 else none)

-- =====================================================================
-- economy/inventory.py — Item
-- =====================================================================

/-- A stack of items in an inventory (`Item` dataclass). -/
structure Item where
  item_type : String
  quantity : ℚ := 1
  quality : ℚ := 1/2
  days_since_created : ℕ := 0
  current_durability : ℚ := 0
  max_durability : ℚ := 0
deriving DecidableEq

def Item.weight_per_unit (i : Item) : ℚ := catalogField i.item_type (·.weight) 1

def Item.total_weight (i : Item) : ℚ := i.quantity * i.weight_per_unit

def Item.food_value (i : Item) : ℚ := catalogField i.item_type (·.food_value) 0

def Item.perish_days (i : Item) : ℕ := catalogField i.item_type (·.perish_days) 9999

def Item.is_tool (i : Item) : Bool := (get_tool_type i.item_type).isSome

def Item.tool_type (i : Item) : Option String := get_tool_type i.item_type

/-- Effective quality of a tool, degraded by durability. -/
def Item.tool_quality (i : Item) : ℚ :=
  if ¬ i.is_tool ∨ i.max_durability = 0 then i.quality
  else i.quality * (i.current_durability / i.max_durability)

/-- `create_item` factory: durability initialized from the catalog. -/
def create_item (item_type : String) (quantity : ℚ := 1) (quality : ℚ := 1/2) : Item :=
  let max_dur := catalogField item_type (·.max_durability) 0
  { item_type := item_type, quantity := quantity, quality := quality,
    current_durability := max_dur, max_durability := max_dur }

-- =====================================================================
-- economy/inventory.py — Inventory
-- =====================================================================

/-- `Inventory`: insertion-ordered map from item type to its stacks. -/
structure Inventory where
  items : List (String × List Item) := []
  capacity : ℚ := CARRY_CAPACITY_BASE
  owner_type : String := "personal"
deriving DecidableEq

def Inventory.total_of (inv : Inventory) (item_type : String) : ℚ :=
  ((((assocGet inv.items item_type).getD []).map Item.quantity)).sum

def Inventory.total_weight (inv : Inventory) : ℚ :=
  (inv.items.map (fun p => (p.2.map Item.total_weight).sum)).sum

def Inventory.remaining_capacity (inv : Inventory) : ℚ :=
  max 0 (inv.capacity - inv.total_weight)

def Inventory.has (inv : Inventory) (item_type : String) (min_quantity : ℚ := 1) : Bool :=
  inv.total_of item_type ≥ min_quantity

/-- Better of two candidate tools under the strict `tool_quality` comparison
used by `get_best_tool`'s scan. -/
def betterTool (best : Option Item) (item : Item) (tool_type : String) : Option Item :=
  if item.tool_type = some tool_type ∧ item.current_durability > 0 then
    match best with
    | none => some item
    | some b => if item.tool_quality > b.tool_quality then some item else some b
  else best

/-- `get_best_tool`: scan every stack in insertion order keeping the best
functional tool of the requested type. -/
def Inventory.get_best_tool (inv : Inventory) (tool_type : String) : Option Item :=
  inv.items.foldl
    (fun best p => p.2.foldl (fun b item => betterTool b item tool_type) best) none

def Inventory.has_tool_type (inv : Inventory) (tool_type : String) : Bool :=
  (inv.get_best_tool tool_type).isSome

/-- The merge-or-append step of `Inventory.add`: merge into the first stack
of similar quality (non-tools only), else append a new stack. -/
def mergeStack : List Item → Item → List Item
  | [], item => [item]
  | s :: rest, item =>
    if |s.quality - item.quality| < 1/20 ∧ ¬ item.is_tool then
      { s with quantity := s.quantity + item.quantity } :: rest
    else s :: mergeStack rest item

/-- Insert an item into the stack map: existing key merges/appends in place,
a new key is appended at the end (dict insertion order). -/
def insertStack : List (String × List Item) → Item → List (String × List Item)
  | [], item => [(item.item_type, [item])]
  | (t, stks) :: rest, item =>
    if t = item.item_type then (t, mergeStack stks item) :: rest
    else (t, stks) :: insertStack rest item

/-- `Inventory.add`: returns the Python `bool` result together with the
post-call inventory.  Overflowing additions are clipped to the remaining
capacity; too-small clipped additions are rejected. -/
def Inventory.add (inv : Inventory) (item : Item) : Bool × Inventory :=
  if inv.total_weight + item.total_weight > inv.capacity then
    let available := inv.capacity - inv.total_weight
    if available ≤ 0 then (false, inv)
    else
      let addable := available / item.weight_per_unit
      if addable < 1/100 then (false, inv)
      else (true, { inv with items := insertStack inv.items { item with quantity := addable } })
  else (true, { inv with items := insertStack inv.items item })

/-- The `while removed_qty < quantity and stks` loop of `Inventory.remove`:
consume oldest stks first, tracking the removed quantity and its running
average quality; stks drained to ≤ 0.001 are popped. -/
def removeLoop : List Item → ℚ → ℚ → ℚ → ℚ × ℚ × List Item
  | [], _, removedQty, avgQuality => (removedQty, avgQuality, [])
  | s :: rest, quantity, removedQty, avgQuality =>
    if removedQty < quantity then
      let take := min (quantity - removedQty) s.quantity
      let newAvg :=
        if removedQty + take > 0 then
          (avgQuality * removedQty + s.quality * take) / (removedQty + take)
        else 0
      let s' : Item := { s with quantity := s.quantity - take }
      if s'.quantity ≤ 1/1000 then removeLoop rest quantity (removedQty + take) newAvg
      else (removedQty + take, newAvg, s' :: rest)
    else (removedQty, avgQuality, s :: rest)

/-- `Inventory.remove`: returns the removed item (or `none`) and the
post-call inventory.  An emptied stack list deletes the key. -/
def Inventory.remove (inv : Inventory) (item_type : String) (quantity : ℚ) :
    Option Item × Inventory :=
  (assocGet inv.items item_type).elim (none, inv) (fun stks =>
    let r := removeLoop stks quantity 0 0
    if r.1 ≤ 0 then (none, { inv with items := assocSet inv.items item_type r.2.2 })
    else
      let inv' :=
        if r.2.2 = [] then { inv with items := assocDel inv.items item_type }
        else { inv with items := assocSet inv.items item_type r.2.2 }
      (some { item_type := item_type, quantity := r.1, quality := r.2.1 }, inv'))

def Inventory.total_food_value (inv : Inventory) : ℚ :=
  (food_items.map (fun item_type =>
    (((assocGet inv.items item_type).getD []).map
      (fun item => item.quantity * item.food_value)).sum)).sum

-- =====================================================================
-- agents/needs.py — Need
-- =====================================================================

/-- A single need with satisfaction level and urgency (`Need` dataclass). -/
structure Need where
  name : String
  satisfaction : ℚ := 1
  decay_rate : ℚ := 1/10
  weight : ℚ := 1
  urgency_curve : String := "exponential"
deriving DecidableEq

/-- `Need.decay`: subtract one day of decay (times the modifier), then clamp
below at 0. -/
def Need.decay (n : Need) (modifier : ℚ := 1) : Need :=
  { n with satisfaction := max 0 (n.satisfaction - n.decay_rate * modifier) }

/-- `Need.satisfy`: increase satisfaction by `amount`, clamped above at 1. -/
def Need.satisfy (n : Need) (amount : ℚ) : Need :=
  { n with satisfaction := min 1 (n.satisfaction + amount) }

def Need.is_critical (n : Need) : Bool := n.satisfaction < SURVIVAL_CRITICAL_THRESHOLD

/-- One call in a `decay`/`satisfy` call sequence, with its argument. -/
inductive NeedOp
  | decay (modifier : ℚ)
  | satisfy (amount : ℚ)
deriving DecidableEq

def Need.applyOp (n : Need) : NeedOp → Need
  | NeedOp.decay modifier => n.decay modifier
  | NeedOp.satisfy amount => n.satisfy amount

/-- Run a finite sequence of `decay`/`satisfy` calls on a need. -/
def Need.runOps (n : Need) (ops : List NeedOp) : Need :=
  ops.foldl Need.applyOp n

/-- A `NeedOp` whose argument is nonnegative (the arguments all of the
program's own call sites pass). -/
def NeedOp.nonnegArg : NeedOp → Prop
  | NeedOp.decay modifier => 0 ≤ modifier
  | NeedOp.satisfy amount => 0 ≤ amount

instance : DecidablePred NeedOp.nonnegArg := fun op => by
  cases op <;> simp [NeedOp.nonnegArg] <;> infer_instance

/-- `NeedSystem`: the per-villager map of the ten needs. -/
structure NeedSystem where
  needs : List (String × Need)
deriving DecidableEq

/-- The ten needs created by `NeedSystem.__init__` (decay rates and weights
from core/config.py). -/
def NeedSystem.init : NeedSystem :=
  { needs :=
    [ ("hunger", { name := "hunger", satisfaction := 1, decay_rate := 35/100, weight := 10, urgency_curve := "exponential" }),
      ("thirst", { name := "thirst", satisfaction := 1, decay_rate := 50/100, weight := 12, urgency_curve := "exponential" }),
      ("rest", { name := "rest", satisfaction := 1, decay_rate := 30/100, weight := 8, urgency_curve := "exponential" }),
      ("warmth", { name := "warmth", satisfaction := 1, decay_rate := 10/100, weight := 7, urgency_curve := "exponential" }),
      ("shelter", { name := "shelter", satisfaction := 1, decay_rate := 5/100, weight := 5, urgency_curve := "linear" }),
      ("safety", { name := "safety", satisfaction := 1, decay_rate := 2/100, weight := 6, urgency_curve := "linear" }),
      ("health", { name := "health", satisfaction := 1, decay_rate := 0, weight := 9, urgency_curve := "exponential" }),
      ("social", { name := "social", satisfaction := 1, decay_rate := 5/100, weight := 3, urgency_curve := "linear" }),
      ("purpose", { name := "purpose", satisfaction := 1, decay_rate := 1/100, weight := 2, urgency_curve := "linear" }),
      ("comfort", { name := "comfort", satisfaction := 1/2, decay_rate := 3/100, weight := 1, urgency_curve := "linear" }) ] }

/-- `self.needs.needs[name]` — keyed access; every state the program builds
has all ten keys, so the default branch is never reached there. -/
def NeedSystem.get (ns : NeedSystem) (name : String) : Need :=
  (assocGet ns.needs name).getD { name := name, satisfaction := 1 }

/-- Overwrite one need's satisfaction (helper used to pose all-else-equal
questions about a villager's state). -/
def NeedSystem.with_satisfaction (ns : NeedSystem) (name : String) (value : ℚ) : NeedSystem :=
  { needs := ns.needs.map (fun p =>
      if p.1 = name then (p.1, { p.2 with satisfaction := value }) else p) }

-- =====================================================================
-- simulation/metrics.py — gini_coefficient
-- =====================================================================

/-- `sum((i + 1) * v for i, v in enumerate(sorted_vals))`, the rank-weighted
sum accumulated from index `i`. -/
def rankWeightedSum : List ℚ → ℕ → ℚ
  | [], _ => 0
  | v :: rest, i => ((i : ℚ) + 1) * v + rankWeightedSum rest (i + 1)

/-- `MetricsCollector.gini_coefficient`: 0 for empty or all-zero input (and
for zero total), else the rank-weighted formula over the ascending-sorted
values.  (The source's `cumulative` accumulator is dead code and has no
effect.) -/
def gini_coefficient (values : List ℚ) : ℚ :=
  if values.isEmpty ∨ values.all (· = 0) then 0
  else
    let sorted_vals := values.insertionSort (· ≤ ·)
    let n : ℚ := sorted_vals.length
    let total := sorted_vals.sum
    if total = 0 then 0
    else 2 * rankWeightedSum sorted_vals 0 / (n * total) - (n + 1) / n

-- =====================================================================
-- economy/trade.py — offers and execution
-- =====================================================================

/-- `TradeOffer` dataclass. -/
structure TradeOffer where
  offering : List (String × ℚ)
  requesting : List (String × ℚ)
  offerer_id : ℤ := -1
  target_id : ℤ := -1
deriving DecidableEq

/-- `TradeRecord` dataclass. -/
structure TradeRecord where
  day : ℕ
  offerer_id : ℤ
  target_id : ℤ
  items_offered : List (String × ℚ)
  items_received : List (String × ℚ)
deriving DecidableEq

/-- The mutable counters and daily record list of `TradeSystem`. -/
structure TradeSystemState where
  daily_trades : List TradeRecord := []
  total_trades : ℕ := 0
  total_items_exchanged : ℚ := 0
deriving DecidableEq

/-- One direction of `execute_trade`'s transfer loop: remove each committed
quantity from `src` and, when something was removed, add it to `dst` (the
add's result flag is ignored, as in the source). -/
def transferAll (src dst : Inventory) (entries : List (String × ℚ)) :
    Inventory × Inventory :=
  entries.foldl
    (fun (p : Inventory × Inventory) e =>
      let r := p.1.remove e.1 e.2
      match r.1 with
      | some item => (r.2, (p.2.add item).2)
      | none => (r.2, p.2))
    (src, dst)

/-- `TradeSystem.execute_trade`: verify both sides hold the committed
quantities (to within the 1% tolerance), then transfer both directions and
record the trade.  Returns the Python result flag, both post-call
inventories and the post-call system state. -/
def execute_trade (st : TradeSystemState) (offer : TradeOffer)
    (offerer_inv target_inv : Inventory) (day : ℕ) :
    Bool × Inventory × Inventory × TradeSystemState :=
  if ¬ offer.offering.all (fun e => decide (¬ offerer_inv.total_of e.1 < e.2 * (99/100))) then
    (false, offerer_inv, target_inv, st)
  else if ¬ offer.requesting.all (fun e => decide (¬ target_inv.total_of e.1 < e.2 * (99/100))) then
    (false, offerer_inv, target_inv, st)
  else
    let p1 := transferAll offerer_inv target_inv offer.offering
    let p2 := transferAll p1.2 p1.1 offer.requesting
    let items_exchanged := (offer.offering.map Prod.snd).sum + (offer.requesting.map Prod.snd).sum
    let record : TradeRecord :=
      { day := day, offerer_id := offer.offerer_id, target_id := offer.target_id,
        items_offered := offer.offering, items_received := offer.requesting }
    (true, p2.2, p2.1,
      { daily_trades := st.daily_trades ++ [record],
        total_trades := st.total_trades + 1,
        total_items_exchanged := st.total_items_exchanged + items_exchanged })

-- =====================================================================
-- agents/personality.py, agents/memory.py, agents/villager.py
-- =====================================================================

def CHILD_MATURITY_AGE : ℚ := 14
def ELDER_DECLINE_AGE : ℚ := 55
def DAYS_PER_YEAR : ℕ := 360

/-- `PersonalityTraits`: 14 real-valued traits (generated on the 1–99
scale). -/
structure PersonalityTraits where
  strength : ℚ := 50
  endurance : ℚ := 50
  dexterity : ℚ := 50
  intelligence : ℚ := 50
  patience : ℚ := 50
  risk_tolerance : ℚ := 50
  sociability : ℚ := 50
  ambition : ℚ := 50
  conscientiousness : ℚ := 50
  empathy : ℚ := 50
  creativity : ℚ := 50
  baseline_optimism : ℚ := 50
  emotional_stability : ℚ := 50
  loss_aversion : ℚ := 50
deriving DecidableEq

/-- `getattr(self.traits, trait_name, 50.0)`. -/
def PersonalityTraits.attr (t : PersonalityTraits) (name : String) : ℚ :=
  match name with
  | "strength" => t.strength
  | "endurance" => t.endurance
  | "dexterity" => t.dexterity
  | "intelligence" => t.intelligence
  | "patience" => t.patience
  | "risk_tolerance" => t.risk_tolerance
  | "sociability" => t.sociability
  | "ambition" => t.ambition
  | "conscientiousness" => t.conscientiousness
  | "empathy" => t.empathy
  | "creativity" => t.creativity
  | "baseline_optimism" => t.baseline_optimism
  | "emotional_stability" => t.emotional_stability
  | "loss_aversion" => t.loss_aversion
  | _ => 50

/-- `Memory` (the fields read by the embedded components; the bounded
interaction/event buffers and route counters are untouched by them). -/
structure Memory where
  skill_experience : List (String × ℚ) := []
  known_resource_nodes : List ℕ := []
  known_recipes : List String := []
  known_medicinal : List String := []
  last_activity : Option String := none
deriving DecidableEq

/-- `Memory.skill_level`: skill 0–100 from XP through the saturating
exponential `100 * (1 - exp(-xp / effective_rate))`; the learning rate is
boosted by intelligence. -/
noncomputable def Memory.skill_level (m : Memory) (activity : String)
    (intelligence : ℚ := 50) : ℝ :=
  let xp : ℚ := (assocGet m.skill_experience activity).getD 0
  let effective_rate : ℚ := SKILL_LEARNING_RATE * (1 + 1/2 * (intelligence / 100))
  100 * (1 - Real.exp (-((xp : ℝ) / (effective_rate : ℝ))))

/-- `Villager`: the agent state read by the embedded components. -/
structure Villager where
  id : ℤ
  name : String := ""
  sex : String := "male"
  age_days : ℕ := 0
  traits : PersonalityTraits := {}
  needs : NeedSystem := NeedSystem.init
  memory : Memory := {}
  health : ℚ := 100
  fatigue : ℚ := 0
  is_alive : Bool := true
  current_position : ℤ × ℤ := (100, 100)
  home_position : ℤ × ℤ := (100, 100)
  family_id : ℤ := -1
  spouse_id : Option ℤ := none
  current_sentiment : ℚ := 50
  personal_inventory : Option Inventory := none
deriving DecidableEq

def Villager.age_years (v : Villager) : ℕ := v.age_days / DAYS_PER_YEAR

def Villager.is_child (v : Villager) : Bool := (v.age_years : ℚ) < CHILD_MATURITY_AGE

/-- `_age_physical_modifier`. -/
def Villager.age_physical_modifier (v : Villager) : ℚ :=
  let age : ℚ := v.age_years
  if age < CHILD_MATURITY_AGE then max (3/10) (age / CHILD_MATURITY_AGE)
  else if age ≤ 20 then 8/10 + 2/10 * ((age - CHILD_MATURITY_AGE) / (20 - CHILD_MATURITY_AGE))
  else if age ≤ 40 then 1
  else if age ≤ ELDER_DECLINE_AGE then 1 - 15/100 * ((age - 40) / (ELDER_DECLINE_AGE - 40))
  else max (3/10) (85/100 - 2/100 * (age - ELDER_DECLINE_AGE))

/-- `_age_mental_modifier`. -/
def Villager.age_mental_modifier (v : Villager) : ℚ :=
  let age : ℚ := v.age_years
  if age < 10 then max (1/2) (age / 10)
  else if age < 70 then 1
  else max (7/10) (1 - 1/100 * (age - 70))

def Villager.health_modifier (v : Villager) : ℚ := v.health / 100

def Villager.fatigue_modifier (v : Villager) : ℚ := max (3/10) (1 - v.fatigue * (1/2))

/-- `get_effective_trait`: physical traits modulated by age, health and
fatigue; intelligence by mental aging; the rest unmodified. -/
def Villager.get_effective_trait (v : Villager) (trait_name : String) : ℚ :=
  let base := v.traits.attr trait_name
  if trait_name = "strength" ∨ trait_name = "endurance" ∨ trait_name = "dexterity" then
    base * v.age_physical_modifier * v.health_modifier * v.fatigue_modifier
  else if trait_name = "intelligence" then base * v.age_mental_modifier
  else base

-- =====================================================================
-- social/family.py — Family and FamilyManager
-- =====================================================================

/-- `Family` dataclass (the crop-plot references live outside the embedded
slice and are omitted; nothing below reads them). -/
structure Family where
  family_id : ℤ
  member_ids : List ℤ := []
  head_of_household : ℤ := -1
  home_position : ℤ × ℤ := (40, 40)
  inventory : Inventory := { capacity := FAMILY_INVENTORY_CAPACITY, owner_type := "family" }
  shelter_id : Option ℕ := none
deriving DecidableEq

/-- `Family.add_member`: append if not already a member. -/
def Family.add_member (f : Family) (villager_id : ℤ) : Family :=
  if villager_id ∈ f.member_ids then f
  else { f with member_ids := f.member_ids ++ [villager_id] }

/-- `Family.remove_member`: drop the first occurrence and, when the removed
member headed a still-nonempty household, promote the first remaining
member. -/
def Family.remove_member (f : Family) (villager_id : ℤ) : Family :=
  let f :=
    if villager_id ∈ f.member_ids then { f with member_ids := f.member_ids.erase villager_id }
    else f
  if f.head_of_household = villager_id then
    match f.member_ids with
    | [] => f
    | h :: _ => { f with head_of_household := h }
  else f

/-- `FamilyManager` state. -/
structure FamilyManager where
  families : List (ℤ × Family) := []
  next_id : ℤ := 0
deriving DecidableEq

def FamilyManager.get_family (mgr : FamilyManager) (family_id : ℤ) : Option Family :=
  assocGet mgr.families family_id

/-- `FamilyManager.create_family`. -/
def FamilyManager.create_family (mgr : FamilyManager) (founding_members : List ℤ)
    (home_position : ℤ × ℤ := (40, 40)) : Family × FamilyManager :=
  let fam : Family :=
    { family_id := mgr.next_id, member_ids := founding_members,
      head_of_household := founding_members.headD (-1),
      home_position := home_position }
  (fam, { families := assocSet mgr.families fam.family_id fam, next_id := mgr.next_id + 1 })

/-- `FamilyManager.form_marriage`: mirror of the source's three branches.
When both villagers have (distinct) existing families, only `villager_b`
moves into A's family; B's former family is deleted only if that left it
empty.  Returns the resulting family, the post-call manager, and
`villager_b` with its possibly-updated `family_id`. -/
def FamilyManager.form_marriage (mgr : FamilyManager) (villager_a villager_b : Villager) :
    Family × FamilyManager × Villager :=
  let fam_a? := assocGet mgr.families villager_a.family_id
  let fam_b? := assocGet mgr.families villager_b.family_id
  match fam_a?, fam_b? with
  | some fam_a, some fam_b =>
    if fam_a.family_id ≠ fam_b.family_id then
      let fam_b' := fam_b.remove_member villager_b.id
      let fam_a' := fam_a.add_member villager_b.id
      let families := assocSet (assocSet mgr.families villager_a.family_id fam_a')
        villager_b.family_id fam_b'
      let families :=
        if fam_b'.member_ids = [] then assocDel families fam_b.family_id else families
      (fam_a', { mgr with families := families },
        { villager_b with family_id := fam_a.family_id })
    else
      let fam_a' := fam_a.add_member villager_b.id
      (fam_a', { mgr with families := assocSet mgr.families villager_a.family_id fam_a' },
        { villager_b with family_id := fam_a.family_id })
  | some fam_a, none =>
    let fam_a' := fam_a.add_member villager_b.id
    (fam_a', { mgr with families := assocSet mgr.families villager_a.family_id fam_a' },
      { villager_b with family_id := fam_a.family_id })
  | none, _ =>
    let r := mgr.create_family [villager_a.id, villager_b.id]
    (r.1, r.2, villager_b)

-- =====================================================================
-- economy/trade.py — subjective value
-- =====================================================================

/-- The skill-based attenuation at the end of `subjective_value`: easily
self-produced resources are worth less to a skilled producer.  This is the
only `Real`-valued step (it reads the exponential skill curve). -/
noncomputable def skill_supply_factor (villager : Villager) (item_type : String) : ℝ :=
  if item_type = "raw_meat" ∨ item_type = "fish" ∨ item_type = "berries" ∨
      item_type = "vegetables" then
    let skill_name :=
      match item_type with
      | "raw_meat" => "hunting"
      | "fish" => "fishing"
      | "berries" => "gathering"
      | "vegetables" => "farming"
      | _ => ""
    if skill_name ≠ "" then
      let skill := villager.memory.skill_level skill_name villager.traits.intelligence
      if skill > 30 then max (1/2 : ℝ) (1 - skill / 200) else 1
    else 1
  else 1

/-- The purely rational prefix of `subjective_value` (everything up to, but
not including, the skill attenuation and the quantity/floor step). -/
def subjective_value_base (villager : Villager) (item_type : String)
    (family_inv : Option Inventory) : ℚ :=
  let base_weight := catalogField item_type (·.weight) 1
  let base_value : ℚ := base_weight * (1/2)
  let food_val := catalogField item_type (·.food_value) 0
  let base_value :=
    if food_val > 0 then
      let hunger_sat := (villager.needs.get "hunger").satisfaction
      let hunger_mult :=
        if hunger_sat < 1/2 then
          1 + (1/2 - hunger_sat) * (TRADE_VALUE_FOOD_HUNGRY_MULTIPLIER - 1) * 2
        else 1
      let bv := food_val * hunger_mult * 2
      let perish_days : ℕ := catalogField item_type (·.perish_days) 999
      if perish_days < 999 then
        let shelf_bonus := min 1 ((perish_days : ℚ) / 60)
        bv * (7/10 + 3/10 * shelf_bonus)
      else bv
    else base_value
  let base_value :=
    match get_tool_type item_type with
    | some tool_type =>
      let has_tool :=
        match villager.personal_inventory with
        | some inv => inv.has_tool_type tool_type
        | none => false
      let has_tool :=
        if !has_tool then
          match family_inv with
          | some fi => fi.has_tool_type tool_type
          | none => has_tool
        else has_tool
      let bv := if !has_tool then base_value * 3 else base_value * (4/5)
      bv * (4/5 + 2/5 * villager.traits.ambition / 100)
    | none => base_value
  let base_value :=
    if catalogField item_type (·.warmth_value) 0 > 0 then
      if (villager.needs.get "warmth").satisfaction < 1/2 then base_value * 2 else base_value
    else base_value
  let base_value :=
    if catalogField item_type (·.heal_value) 0 > 0 then
      if (villager.needs.get "health").satisfaction < 7/10 then base_value * (5/2) else base_value
    else base_value
  let owned :=
    (match family_inv with | some fi => fi.total_of item_type | none => 0) +
    (match villager.personal_inventory with | some inv => inv.total_of item_type | none => 0)
  if owned > 0 then base_value * (1 / (1 + owned * TRADE_DIMINISHING_SURPLUS_FACTOR))
  else base_value

/-- `subjective_value`: how much this villager values this item right now
(abstract utility units), floored at 0.01. -/
noncomputable def subjective_value (villager : Villager) (item_type : String)
    (quantity : ℚ) (family_inv : Option Inventory := none) : ℝ :=
  max (1/100 : ℝ)
    ((subjective_value_base villager item_type family_inv : ℝ) *
      skill_supply_factor villager item_type * (quantity : ℝ))

-- =====================================================================
-- economy/trade.py — surplus / deficit and offer generation
-- =====================================================================

/-- The inventory-scan loop of `_get_surplus`, threading the remaining food
need through the insertion-ordered items. -/
def surplusLoop : List (String × List Item) → ℚ → List (String × ℚ)
  | [], _ => []
  | (item_type, stks) :: rest, remaining_food_need =>
    let total_qty := (stks.map Item.quantity).sum
    if total_qty ≤ 1/100 then surplusLoop rest remaining_food_need
    else
      let food_val := catalogField item_type (·.food_value) 0
      if food_val > 0 then
        let needed_qty := remaining_food_need / max (1/100) food_val
        let excess := total_qty - needed_qty
        let entry := if excess > 1/2 then [(item_type, excess)] else []
        entry ++ surplusLoop rest (remaining_food_need - min total_qty needed_qty * food_val)
      else if (get_tool_type item_type).isSome then
        (if total_qty > 1 then [(item_type, total_qty - 1)] else []) ++
          surplusLoop rest remaining_food_need
      else
        (if total_qty > 5 then [(item_type, total_qty - 5)] else []) ++
          surplusLoop rest remaining_food_need

/-- `_get_surplus`: items beyond the coming days' needs.  (The `villager`
parameter is accepted and unused, as in the source.) -/
def get_surplus (villager : Villager) (inv : Inventory) : List (String × ℚ) :=
  surplusLoop inv.items (BASE_DAILY_FOOD_NEED * TRADE_SURPLUS_DAYS_THRESHOLD)

/-- First catalog item whose entry carries the given `tool_type`, in catalog
order. -/
def firstCatalogItemOfToolType (tool_type : String) : Option String :=
  (ITEM_CATALOG.find? (fun p => p.2.tool_type = some tool_type)).map Prod.fst

/-- `_get_deficits`: missing food (top preference item only), missing
essential tools, missing clothing when cold, missing medicine when hurt.
The tool set literal is iterated in its written order (the dict produced
does not depend on the iteration order). -/
def get_deficits (villager : Villager) (inv : Inventory) : List (String × ℚ) :=
  let food_need := BASE_DAILY_FOOD_NEED * TRADE_DEFICIT_DAYS_THRESHOLD
  let total_food_value := inv.total_food_value
  let foodDeficits :=
    if total_food_value < food_need then
      let deficit_food := food_need - total_food_value
      let fv := catalogField "grain" (·.food_value) (1/2)
      [("grain", deficit_food / fv)]
    else []
  let toolDeficits :=
    ["axe", "knife", "spear", "farming", "fishing"].filterMap (fun tool_type =>
      let has := inv.has_tool_type tool_type
      let has :=
        match villager.personal_inventory with
        | some pinv => if !has then pinv.has_tool_type tool_type else has
        | none => has
      if !has then (firstCatalogItemOfToolType tool_type).map (fun itype => (itype, (1 : ℚ)))
      else none)
  let warmthDeficits :=
    if (villager.needs.get "warmth").satisfaction < 2/5 then
      if !(inv.has "clothing") then [("clothing", (1 : ℚ))] else []
    else []
  let medicineDeficits :=
    if villager.health < 70 then
      if !(inv.has "medicine") then [("medicine", (1 : ℚ))] else []
    else []
  foodDeficits ++ toolDeficits ++ warmthDeficits ++ medicineDeficits

/-- Python `max(keys, key=...)` over an insertion-ordered dict: the first
entry with maximal value wins. -/
def maxByValue (l : List (String × ℚ)) : Option (String × ℚ) :=
  l.foldl
    (fun best p =>
      match best with
      | none => some p
      | some b => if p.2 > b.2 then some p else some b)
    none

/-- The `if not requesting` fallback loop of `generate_offer`: first partner
surplus item not already being offered whose 30% slice clears 0.01. -/
def requestFallback : List (String × ℚ) → List (String × ℚ) → Option (String × ℚ)
  | [], _ => none
  | (item_type, qty) :: rest, offering =>
    if (assocGet offering item_type).isNone then
      let req_qty := min (qty * (3/10)) qty
      if req_qty > 1/100 then some (item_type, req_qty) else requestFallback rest offering
    else requestFallback rest offering

/-- `generate_offer` up to (but not including) the ambition-driven
rescaling step: returns the offering, the requested quantities as first
computed, and the two subjective-value totals. -/
noncomputable def generateOfferParts (villager partner : Villager)
    (villager_inv partner_inv_estimate : Inventory) :
    Option (List (String × ℚ) × List (String × ℚ) × ℝ × ℝ) :=
  let my_surplus := get_surplus villager villager_inv
  let partner_deficit_estimate := get_deficits partner partner_inv_estimate
  if my_surplus = [] then none
  else
    let offering : List (String × ℚ) :=
      my_surplus.filterMap (fun p =>
        (assocGet partner_deficit_estimate p.1).bind (fun d =>
          let offer_qty := min p.2 d
          if offer_qty > 1/100 then some (p.1, offer_qty) else none))
    let offer_value : ℝ :=
      (offering.map (fun p => subjective_value partner p.1 p.2 (some partner_inv_estimate))).sum
    let fallback :=
      if offering = [] then
        match maxByValue my_surplus with
        | some best =>
          let offer_qty := min best.2 (best.2 * (1/2))
          if offer_qty > 1/100 then
            ([(best.1, offer_qty)],
              offer_value + subjective_value partner best.1 offer_qty (some partner_inv_estimate))
          else (offering, offer_value)
        | none => (offering, offer_value)
      else (offering, offer_value)
    let offering := fallback.1
    let offer_value := fallback.2
    if offering = [] ∨ offer_value < 1/10 then none
    else
      let my_deficits := get_deficits villager villager_inv
      let requesting : List (String × ℚ) :=
        my_deficits.filterMap (fun p =>
          let est_partner_has := partner_inv_estimate.total_of p.1
          if est_partner_has > 0 then
            let req_qty := min p.2 (est_partner_has * (1/2))
            if req_qty > 1/100 then some (p.1, req_qty) else none
          else none)
      let request_value : ℝ :=
        (requesting.map (fun p => subjective_value villager p.1 p.2 (some villager_inv))).sum
      let fallback2 :=
        if requesting = [] then
          match requestFallback (get_surplus partner partner_inv_estimate) offering with
          | some r =>
            ([r], request_value + subjective_value villager r.1 r.2 (some villager_inv))
          | none => (requesting, request_value)
        else (requesting, request_value)
      let requesting := fallback2.1
      let request_value := fallback2.2
      if requesting = [] then none
      else some (offering, requesting, offer_value, request_value)

/-- A generated offer; the requested quantities carry the (real-valued)
rescaling factor. -/
structure GeneratedOffer where
  offering : List (String × ℚ)
  requesting : List (String × ℝ)
  offerer_id : ℤ
  target_id : ℤ

/-- The final step of `generate_offer`: rescale each requested quantity so
value-for-value roughly balances, adjusted by the proposer's ambition; each
entry is clamped from above by its own previous value. -/
noncomputable def rescaleRequesting (requesting : List (String × ℚ))
    (offer_value request_value : ℝ) (ambition : ℚ) : List (String × ℝ) :=
  let ambition_factor : ℝ := 1 + ((ambition : ℝ) - 50) / 100 * (TRADE_PERSONALITY_MARGIN : ℝ)
  if request_value > 0 ∧ offer_value > 0 then
    let value_ratio := offer_value * ambition_factor / request_value
    requesting.map (fun p => (p.1, min ((p.2 : ℝ) * value_ratio) (p.2 : ℝ)))
  else requesting.map (fun p => (p.1, (p.2 : ℝ)))

/-- `TradeSystem.generate_offer` (the trust argument is accepted and unused,
as in the source). -/
noncomputable def generate_offer (villager partner : Villager)
    (villager_inv partner_inv_estimate : Inventory) (relationship_trust : ℚ) :
    Option GeneratedOffer :=
  (generateOfferParts villager partner villager_inv partner_inv_estimate).map
    (fun parts =>
      { offering := parts.1,
        requesting := rescaleRequesting parts.2.1 parts.2.2.1 parts.2.2.2
          villager.traits.ambition,
        offerer_id := villager.id, target_id := partner.id })

-- =====================================================================
-- world/resources.py (enum), economy/activities.py
-- =====================================================================

inductive ResourceType
  | TIMBER
  | GAME_SMALL
  | GAME_LARGE
  | FISH
  | STONE
  | CLAY
  | IRON_ORE
  | WILD_PLANTS
  | MEDICINAL_HERBS
  | FARMLAND
  | FRESH_WATER
deriving DecidableEq

/-- `Activity` dataclass: static per-activity data. -/
structure Activity where
  name : String
  description : String := ""
  trait_weights : List (String × ℚ) := []
  base_success_chance : ℚ := 1/2
  base_hours : ℚ := 4
  required_tools : List String := []
  required_season : Option (List String) := none
  resource_type : Option ResourceType := none
  outputs : List (String × ℚ) := []
  danger_level : ℚ := 0
  min_group_size : ℕ := 1
  group_bonus : ℚ := 0
  xp_category : String := ""
  fatigue_cost : ℚ := 1/20
deriving DecidableEq

/-- `weighted_trait_score`: effective traits weighted by the activity's
requirements, mapped to the range [0.5, 1.5]. -/
def weighted_trait_score (villager : Villager) (trait_weights : List (String × ℚ)) : ℚ :=
  if trait_weights = [] then 1
  else
    let total_weight := (trait_weights.map Prod.snd).sum
    if total_weight = 0 then 1
    else
      let weighted_sum :=
        (trait_weights.map (fun p => (villager.get_effective_trait p.1 / 100) * p.2)).sum
      1/2 + weighted_sum / total_weight

/-- The diminishing-returns group modifier of `calculate_success`. -/
def group_modifier (group_bonus : ℚ) (group_size : ℕ) : ℚ :=
  if group_size > 1 ∧ group_bonus > 0 then
    (List.range' 1 (group_size - 1)).foldl (fun m i => m + group_bonus * (4/5) ^ i) 1
  else 1

/-- `Activity.calculate_success`: success probability for this villager,
clamped to [0.05, 0.95].  (`group_skill_avg` is accepted and unused, as in
the source.) -/
noncomputable def Activity.calculate_success (a : Activity) (villager : Villager)
    (tool_quality : ℚ := 1) (group_size : ℕ := 1) (group_skill_avg : ℚ := 0)
    (weather_modifier : ℚ := 1) : ℝ :=
  let trait_score := weighted_trait_score villager a.trait_weights
  let category := if a.xp_category = "" then a.name else a.xp_category
  let skill := villager.memory.skill_level category villager.traits.intelligence
  let skill_mod : ℝ := 1/2 + 3/2 * (skill / 100)
  let tool_mod : ℚ := 1/2 + tool_quality
  let group_mod := group_modifier a.group_bonus group_size
  let chance : ℝ :=
    (a.base_success_chance : ℝ) * (trait_score : ℝ) * skill_mod * (tool_mod : ℝ) *
      (group_mod : ℝ) * (weather_modifier : ℝ)
  max (5/100) (min (95/100) chance)

/-- The `ACTIVITIES` catalog (economy/activities.py), in source order. -/
def ACTIVITIES : List (String × Activity) :=
  [ ("gather_berries",
      { name := "gather_berries",
        trait_weights := [("endurance", 4/10), ("intelligence", 3/10), ("dexterity", 3/10)],
        base_success_chance := 80/100, base_hours := 3,
        resource_type := some ResourceType.WILD_PLANTS,
        outputs := [("berries", 6), ("plant_fiber", 3/2)],
        danger_level := 2/100, fatigue_cost := 5/100, xp_category := "gathering" }),
    ("hunt_small_game",
      { name := "hunt_small_game",
        trait_weights := [("dexterity", 35/100), ("patience", 25/100), ("endurance", 2/10), ("intelligence", 2/10)],
        base_success_chance := 65/100, base_hours := 4,
        required_tools := ["spear"],
        resource_type := some ResourceType.GAME_SMALL,
        outputs := [("raw_meat", 4), ("animal_hide", 1)],
        danger_level := 5/100, fatigue_cost := 8/100, xp_category := "hunting" }),
    ("hunt_large_game",
      { name := "hunt_large_game",
        trait_weights := [("strength", 3/10), ("endurance", 25/100), ("risk_tolerance", 15/100), ("dexterity", 2/10), ("patience", 1/10)],
        base_success_chance := 45/100, base_hours := 8,
        required_tools := ["spear"],
        resource_type := some ResourceType.GAME_LARGE,
        outputs := [("raw_meat", 12), ("animal_hide", 3)],
        danger_level := 15/100, min_group_size := 1, group_bonus := 15/100,
        fatigue_cost := 12/100, xp_category := "hunting" }),
    ("fishing",
      { name := "fishing",
        trait_weights := [("patience", 4/10), ("dexterity", 3/10), ("intelligence", 3/10)],
        base_success_chance := 70/100, base_hours := 4,
        required_tools := ["fishing"],
        resource_type := some ResourceType.FISH,
        outputs := [("fish", 5)],
        danger_level := 2/100, fatigue_cost := 4/100, xp_category := "fishing" }),
    ("chop_wood",
      { name := "chop_wood",
        trait_weights := [("strength", 5/10), ("endurance", 35/100), ("dexterity", 15/100)],
        base_success_chance := 9/10, base_hours := 4,
        required_tools := ["axe"],
        resource_type := some ResourceType.TIMBER,
        outputs := [("timber", 2), ("firewood", 3)],
        danger_level := 5/100, fatigue_cost := 1/10, xp_category := "woodcutting" }),
    ("mine_stone",
      { name := "mine_stone",
        trait_weights := [("strength", 45/100), ("endurance", 4/10), ("dexterity", 15/100)],
        base_success_chance := 8/10, base_hours := 6,
        required_tools := ["mining"],
        resource_type := some ResourceType.STONE,
        outputs := [("stone", 3)],
        danger_level := 8/100, fatigue_cost := 12/100, xp_category := "mining" }),
    ("mine_ore",
      { name := "mine_ore",
        trait_weights := [("strength", 4/10), ("endurance", 35/100), ("intelligence", 15/100), ("dexterity", 1/10)],
        base_success_chance := 5/10, base_hours := 7,
        required_tools := ["mining"],
        resource_type := some ResourceType.IRON_ORE,
        outputs := [("iron_ore", 3/2)],
        danger_level := 12/100, fatigue_cost := 14/100, xp_category := "mining" }),
    ("farm_plant",
      { name := "farm_plant",
        trait_weights := [("patience", 3/10), ("endurance", 3/10), ("strength", 2/10), ("intelligence", 2/10)],
        base_success_chance := 8/10, base_hours := 6,
        required_tools := ["farming"],
        required_season := some ["spring", "summer"],
        resource_type := some ResourceType.FARMLAND,
        danger_level := 1/100, fatigue_cost := 8/100, xp_category := "farming" }),
    ("farm_tend",
      { name := "farm_tend",
        trait_weights := [("patience", 3/10), ("conscientiousness", 3/10), ("endurance", 2/10), ("intelligence", 2/10)],
        base_success_chance := 9/10, base_hours := 4,
        required_tools := ["farming"],
        required_season := some ["spring", "summer"],
        danger_level := 1/100, fatigue_cost := 6/100, xp_category := "farming" }),
    ("farm_harvest",
      { name := "farm_harvest",
        trait_weights := [("endurance", 4/10), ("strength", 3/10), ("dexterity", 3/10)],
        base_success_chance := 95/100, base_hours := 8,
        required_tools := ["farming"],
        required_season := some ["summer", "autumn"],
        outputs := [("grain", 10), ("vegetables", 5)],
        danger_level := 1/100, group_bonus := 1/10,
        fatigue_cost := 1/10, xp_category := "farming" }),
    ("cook_food",
      { name := "cook_food",
        trait_weights := [("intelligence", 3/10), ("dexterity", 3/10), ("patience", 2/10), ("creativity", 2/10)],
        base_success_chance := 8/10, base_hours := 2,
        required_tools := ["knife"],
        outputs := [("cooked_meat", 1)],
        danger_level := 2/100, fatigue_cost := 3/100, xp_category := "cooking" }),
    ("preserve_food",
      { name := "preserve_food",
        trait_weights := [("intelligence", 3/10), ("patience", 4/10), ("conscientiousness", 3/10)],
        base_success_chance := 6/10, base_hours := 4,
        required_tools := ["knife"],
        outputs := [("dried_meat", 1)],
        danger_level := 1/100, fatigue_cost := 4/100, xp_category := "cooking" }),
    ("craft_tools",
      { name := "craft_tools",
        trait_weights := [("dexterity", 35/100), ("intelligence", 35/100), ("patience", 2/10), ("creativity", 1/10)],
        base_success_chance := 65/100, base_hours := 5,
        danger_level := 3/100, fatigue_cost := 6/100, xp_category := "crafting" }),
    ("build_shelter",
      { name := "build_shelter",
        trait_weights := [("strength", 35/100), ("intelligence", 25/100), ("dexterity", 2/10), ("endurance", 2/10)],
        base_success_chance := 7/10, base_hours := 8,
        required_tools := ["axe", "construction"],
        danger_level := 6/100, group_bonus := 2/10,
        fatigue_cost := 12/100, xp_category := "construction" }),
    ("build_road",
      { name := "build_road",
        trait_weights := [("strength", 4/10), ("endurance", 4/10), ("conscientiousness", 2/10)],
        base_success_chance := 9/10, base_hours := 6,
        required_tools := ["construction"],
        danger_level := 3/100, min_group_size := 2, group_bonus := 25/100,
        fatigue_cost := 11/100, xp_category := "construction" }),
    ("gather_herbs",
      { name := "gather_herbs",
        trait_weights := [("intelligence", 4/10), ("patience", 3/10), ("dexterity", 3/10)],
        base_success_chance := 4/10, base_hours := 4,
        resource_type := some ResourceType.MEDICINAL_HERBS,
        outputs := [("medicine", 1)],
        danger_level := 2/100, fatigue_cost := 4/100, xp_category := "herbalism" }),
    ("heal_villager",
      { name := "heal_villager",
        trait_weights := [("intelligence", 4/10), ("empathy", 3/10), ("dexterity", 2/10), ("patience", 1/10)],
        base_success_chance := 4/10, base_hours := 3,
        danger_level := 1/100, fatigue_cost := 4/100, xp_category := "herbalism" }),
    ("rest",
      { name := "rest", base_success_chance := 1, base_hours := 0,
        danger_level := 0, fatigue_cost := -(3/10), xp_category := "" }),
    ("socialize",
      { name := "socialize",
        trait_weights := [("sociability", 5/10), ("empathy", 3/10), ("intelligence", 2/10)],
        base_success_chance := 1, base_hours := 4,
        danger_level := 0, min_group_size := 2, fatigue_cost := 2/100, xp_category := "" }),
    ("explore",
      { name := "explore",
        trait_weights := [("risk_tolerance", 3/10), ("endurance", 3/10), ("intelligence", 2/10), ("dexterity", 2/10)],
        base_success_chance := 3/10, base_hours := 8,
        danger_level := 1/10, fatigue_cost := 1/10, xp_category := "exploration" }) ]

/-- `ACTIVITY_NEED_MAPPING`: which needs each activity helps satisfy. -/
def ACTIVITY_NEED_MAPPING : List (String × List String) :=
  [ ("gather_berries", ["hunger"]),
    ("hunt_small_game", ["hunger"]),
    ("hunt_large_game", ["hunger"]),
    ("fishing", ["hunger"]),
    ("chop_wood", ["warmth", "shelter"]),
    ("mine_stone", ["shelter"]),
    ("mine_ore", ["purpose"]),
    ("farm_plant", ["hunger"]),
    ("farm_tend", ["hunger"]),
    ("farm_harvest", ["hunger"]),
    ("cook_food", ["hunger", "comfort"]),
    ("preserve_food", ["hunger"]),
    ("craft_tools", ["purpose", "safety"]),
    ("build_shelter", ["shelter", "warmth", "safety"]),
    ("build_road", ["purpose"]),
    ("gather_herbs", ["health"]),
    ("heal_villager", ["health"]),
    ("rest", ["rest"]),
    ("socialize", ["social"]),
    ("explore", ["purpose", "safety"]) ]

-- =====================================================================
-- agents/decision.py — activity feasibility and scoring
-- =====================================================================

/-- `ActivityPlan` dataclass. -/
structure ActivityPlan where
  activity_name : String
  target_resource_id : Option ℕ := none
  target_villager_id : Option ℤ := none
  planned_hours : ℚ := 4
  target_position : Option (ℤ × ℤ) := none
deriving DecidableEq

/-- A resource node as read by the decision engine. -/
structure ResourceNode where
  node_id : ℕ
  position : ℤ × ℤ
  current_abundance : ℚ
  resource_type : ResourceType
deriving DecidableEq

/-- `WorldState`: the read-only world view handed to the decision engine;
the resource and travel collaborators are opaque function fields. -/
structure WorldState where
  season : String
  weather_modifier : ℚ
  find_resource : (ℤ × ℤ) → ResourceType → Option ResourceNode
  estimate_travel : (ℤ × ℤ) → (ℤ × ℤ) → ℚ
  family_inventories : List (ℤ × Inventory)

def WorldState.get_family_inventory (ws : WorldState) (family_id : ℤ) : Option Inventory :=
  assocGet ws.family_inventories family_id

/-- The tool-search loop of `_evaluate_activity`: for each required tool
category in order, look in the personal then the family inventory; stop at
the first tool found. -/
def findFirstTool (inv family_inv : Option Inventory) : List String → Option Item
  | [] => none
  | tool_type :: rest =>
    let tool := match inv with | some i => i.get_best_tool tool_type | none => none
    let tool :=
      match tool with
      | none => match family_inv with | some f => f.get_best_tool tool_type | none => none
      | some t => some t
    match tool with
    | some t => some t
    | none => findFirstTool inv family_inv rest

/-- `_apply_personality_biases` (its `current_schedule` parameter is
accepted and unused, as in the source). -/
def apply_personality_biases (villager : Villager) (activity : Activity) (score : ℝ)
    (current_schedule : List ActivityPlan) : ℝ :=
  let score :=
    if activity.name = "fishing" ∨ activity.name = "farm_tend" ∨ activity.name = "farm_plant" then
      score + (((villager.traits.patience - 50) / 100 * (15/100) : ℚ) : ℝ)
    else score
  let score :=
    if activity.name = "hunt_large_game" ∨ activity.name = "mine_ore" ∨ activity.name = "craft_tools" then
      score + (((villager.traits.ambition - 50) / 100 * (15/100) : ℚ) : ℝ)
    else score
  let score :=
    if activity.min_group_size > 1 then
      score + (((villager.traits.sociability - 50) / 100 * (1/10) : ℚ) : ℝ)
    else score
  let score :=
    if activity.name = "craft_tools" ∨ activity.name = "cook_food" then
      score + (((villager.traits.creativity - 50) / 100 * (1/10) : ℚ) : ℝ)
    else score
  let score :=
    if activity.name.startsWith "farm_" then
      score + (((villager.traits.conscientiousness - 50) / 100 * (1/10) : ℚ) : ℝ)
    else score
  let score :=
    if activity.danger_level > 5/100 then
      score + (((villager.traits.risk_tolerance - 50) / 100 * (1/10) : ℚ) : ℝ)
    else score
  if activity.base_hours ≤ 3 then
    score + ((((100 - villager.traits.patience) / 100) * (8/100) : ℚ) : ℝ)
  else score

/-- The score-and-plan tail of `_evaluate_activity`, reached once every
feasibility gate has passed.  `noise_draw` is the `uniform(-0.1, 0.1)`
random draw, passed in explicitly. -/
noncomputable def activityScorePlan (villager : Villager) (activity : Activity)
    (world_state : WorldState) (remaining_hours : ℚ) (urgencies : List (String × ℝ))
    (current_schedule : List ActivityPlan) (noise_draw : ℝ) (tool_quality : ℚ)
    (target_resource_id : Option ℕ) (target_pos : Option (ℤ × ℤ))
    (travel_hours : ℚ) : ℝ × ActivityPlan :=
  let satisfied_needs := (assocGet ACTIVITY_NEED_MAPPING activity.name).getD []
  let score : ℝ :=
    (satisfied_needs.map (fun n => ((assocGet urgencies n).getD 0) * (3/10 : ℝ))).sum
  let success_prob :=
    activity.calculate_success villager tool_quality 1 0 world_state.weather_modifier
  let score := score * success_prob
  let risk_tolerance := villager.traits.risk_tolerance / 100
  let risk_penalty : ℚ := activity.danger_level * (3/2 - risk_tolerance)
  let score := score - (risk_penalty : ℝ)
  let score :=
    if activity.base_hours > 0 then
      score + (((1 / (activity.base_hours + travel_hours * 2)) * (1/10) : ℚ) : ℝ)
    else score
  let score := apply_personality_biases villager activity score current_schedule
  let score :=
    if villager.memory.last_activity = some activity.name then
      score + ((HABIT_INERTIA_BONUS : ℚ) : ℝ)
    else score
  let noise := noise_draw * (1 - ((villager.traits.intelligence : ℚ) : ℝ) / 100)
  let score := score + noise
  let planned_hours :=
    min (if activity.base_hours = 0 then remaining_hours else activity.base_hours)
      remaining_hours
  let planned_hours :=
    if travel_hours > 0 then min planned_hours (remaining_hours - travel_hours * 2)
    else planned_hours
  (max 0 score,
    { activity_name := activity.name, target_resource_id := target_resource_id,
      planned_hours := max 1 planned_hours, target_position := target_pos })

/-- `DecisionEngine._evaluate_activity`: the feasibility gates (time,
season, tools, reachable non-depleted resource), then the score and plan;
`none` means infeasible. -/
noncomputable def evaluate_activity (villager : Villager) (activity : Activity)
    (world_state : WorldState) (remaining_hours : ℚ) (urgencies : List (String × ℝ))
    (current_schedule : List ActivityPlan) (noise_draw : ℝ) : Option (ℝ × ActivityPlan) :=
  if activity.base_hours > remaining_hours ∧ activity.base_hours > 0 then none
  else
    let seasonBlocked : Bool :=
      match activity.required_season with
      | some seasons => ¬ seasons.contains world_state.season
      | none => false
    if seasonBlocked then none
    else
      let inv := villager.personal_inventory
      let family_inv := world_state.get_family_inventory villager.family_id
      let firstTool := findFirstTool inv family_inv activity.required_tools
      if activity.required_tools ≠ [] ∧ firstTool = none then none
      else
        let tool_quality : ℚ := (firstTool.map Item.tool_quality).getD 1
        match activity.resource_type with
        | some rt =>
          match world_state.find_resource villager.current_position rt with
          | none => none
          | some node =>
            if node.current_abundance ≤ 0 then none
            else
              let travel_hours := world_state.estimate_travel villager.current_position node.position
              if travel_hours * 2 + activity.base_hours > remaining_hours then none
              else
                some (activityScorePlan villager activity world_state remaining_hours
                  urgencies current_schedule noise_draw tool_quality
                  (some node.node_id) (some node.position) travel_hours)
        | none =>
          some (activityScorePlan villager activity world_state remaining_hours
            urgencies current_schedule noise_draw tool_quality none none 0)

-- =====================================================================
-- simulation/engine.py — the WorldState construction call
-- =====================================================================

/-- The parameter names accepted by `WorldState.__init__`
(agents/decision.py). -/
def worldStateInitParams : List String :=
  ["season", "weather_modifier", "resource_manager", "world_map", "family_inventories"]

/-- The keyword arguments `SimulationEngine._build_world_state` passes to
`WorldState(...)` (simulation/engine.py). -/
def buildWorldStateCallKeywords : List String :=
  ["season", "weather_modifier", "resource_manager", "world_map", "family_inventories", "rng"]

/-- A Python keyword call binds without a `TypeError` only when every
keyword names a declared parameter. -/
def pythonKeywordCallOk (params keywords : List String) : Bool :=
  keywords.all (params.contains ·)

-- =====================================================================
-- Theorems
-- =====================================================================

/-- Claim C1.  The determinism property is unreachable: stage 3 of every
`tick` calls `_build_world_state`, whose `WorldState(...)` call passes the
keyword `rng` that `WorldState.__init__` does not declare, so the call
raises `TypeError` before any day's metrics snapshot is collected.  No run
with a living villager produces the day-by-day snapshots the claim
quantifies over. -/
theorem build_world_state_call_raises :
    pythonKeywordCallOk worldStateInitParams buildWorldStateCallKeywords = false := by
  decide

/-- Claim C2: when `execute_trade` returns `False` (which happens exactly
when inventory verification fails), both inventories are returned exactly
as they were passed in — no stack of either inventory changes. -/
theorem execute_trade_false_leaves_inventories (st : TradeSystemState) (offer : TradeOffer)
    (offerer_inv target_inv : Inventory) (day : ℕ)
    (h : (execute_trade st offer offerer_inv target_inv day).1 = false) :
    (execute_trade st offer offerer_inv target_inv day).2.1 = offerer_inv ∧
      (execute_trade st offer offerer_inv target_inv day).2.2.1 = target_inv := by
  unfold execute_trade at h ⊢
  split_ifs at h ⊢
  · exact ⟨rfl, rfl⟩
  · exact ⟨rfl, rfl⟩

/-- Witness for C2 at a concrete failing trade: five grain demanded from an
empty inventory. -/
theorem execute_trade_false_leaves_inventories_witness :
    (execute_trade {} { offering := [("grain", 5)], requesting := [] }
        { items := [] } { items := [] } 0).1 = false ∧
      ((execute_trade {} { offering := [("grain", 5)], requesting := [] }
          { items := [] } { items := [] } 0).2.1 = { items := [] } ∧
        (execute_trade {} { offering := [("grain", 5)], requesting := [] }
            { items := [] } { items := [] } 0).2.2.1 = { items := [] }) :=
  have h : (execute_trade {} { offering := [("grain", 5)], requesting := [] }
      { items := [] } { items := [] } 0).1 = false := by
    norm_num [execute_trade, Inventory.total_of, assocGet]
  ⟨h, execute_trade_false_leaves_inventories _ _ _ _ _ h⟩

/-- `Need.applyOp` keeps satisfaction in [0, 1] when the argument is
nonnegative and the decay rate is nonnegative; the decay rate itself never
changes. -/
theorem applyOp_bounds (n : Need) (op : NeedOp) (h0 : 0 ≤ n.satisfaction)
    (h1 : n.satisfaction ≤ 1) (hr : 0 ≤ n.decay_rate) (hop : op.nonnegArg) :
    0 ≤ (n.applyOp op).satisfaction ∧ (n.applyOp op).satisfaction ≤ 1 ∧
      (n.applyOp op).decay_rate = n.decay_rate := by
  cases op with
  | decay modifier =>
    refine ⟨le_max_left _ _, ?_, rfl⟩
    have hm : 0 ≤ n.decay_rate * modifier := mul_nonneg hr hop
    have : n.satisfaction - n.decay_rate * modifier ≤ 1 := by linarith
    exact max_le (by norm_num) this
  | satisfy amount =>
    refine ⟨?_, min_le_left _ _, rfl⟩
    have : (0 : ℚ) ≤ n.satisfaction + amount := by
      have : (0 : ℚ) ≤ amount := hop
      linarith
    exact le_min (by norm_num) this

/-- Claim C3 (amended): starting from satisfaction in [0, 1], with a
nonnegative decay rate, any sequence of `decay`/`satisfy` calls whose
modifiers and amounts are nonnegative keeps satisfaction in [0, 1] after
every call (every prefix of a sequence is itself such a sequence). -/
theorem need_runOps_bounds (n : Need) (ops : List NeedOp) (h0 : 0 ≤ n.satisfaction)
    (h1 : n.satisfaction ≤ 1) (hr : 0 ≤ n.decay_rate)
    (hops : ∀ op ∈ ops, op.nonnegArg) :
    0 ≤ (n.runOps ops).satisfaction ∧ (n.runOps ops).satisfaction ≤ 1 := by
  induction ops generalizing n with
  | nil => exact ⟨h0, h1⟩
  | cons op rest ih =>
    have hop : op.nonnegArg := hops op (List.mem_cons_self _ _)
    obtain ⟨g0, g1, gr⟩ := applyOp_bounds n op h0 h1 hr hop
    have : (n.applyOp op).runOps rest = n.runOps (op :: rest) := rfl
    rw [← this]
    exact ih (n.applyOp op) g0 g1 (gr ▸ hr) (fun o ho => hops o (List.mem_cons_of_mem _ ho))

/-- Witness for C3's amended theorem at the `hunger` need with a
nonnegative decay/satisfy sequence. -/
theorem need_runOps_bounds_witness :
    0 ≤ (Need.runOps
        { name := "hunger", satisfaction := 1, decay_rate := 35/100, weight := 10,
          urgency_curve := "exponential" }
        [NeedOp.decay 1, NeedOp.satisfy (1/2), NeedOp.decay (1/2)]).satisfaction ∧
      (Need.runOps
        { name := "hunger", satisfaction := 1, decay_rate := 35/100, weight := 10,
          urgency_curve := "exponential" }
        [NeedOp.decay 1, NeedOp.satisfy (1/2), NeedOp.decay (1/2)]).satisfaction ≤ 1 :=
  need_runOps_bounds _ _ (by norm_num) (by norm_num) (by norm_num)
    (by norm_num [NeedOp.nonnegArg])

/-- Counterexample to C3 as frozen: `satisfy` accepts any real amount, and a
negative amount drives satisfaction below 0 (`min(1.0, 1 + (-2)) = -1`), so
the satisfaction does not remain in [0, 1] for every argument the
operations accept. -/
theorem need_satisfy_negative_escapes_bounds :
    ¬ (0 ≤ (Need.runOps
        { name := "hunger", satisfaction := 1, decay_rate := 35/100, weight := 10,
          urgency_curve := "exponential" }
        [NeedOp.satisfy (-2)]).satisfaction ∧
      (Need.runOps
        { name := "hunger", satisfaction := 1, decay_rate := 35/100, weight := 10,
          urgency_curve := "exponential" }
        [NeedOp.satisfy (-2)]).satisfaction ≤ 1) := by
  norm_num [Need.runOps, Need.applyOp, Need.satisfy]

theorem assocGet_assocSet_self {κ α : Type} [DecidableEq κ] (l : List (κ × α)) (k : κ)
    (v : α) : assocGet (assocSet l k v) k = some v := by
  induction l with
  | nil => simp [assocSet, assocGet]
  | cons p rest ih =>
    obtain ⟨pk, pv⟩ := p
    by_cases hk : pk = k
    · simp [assocSet, hk, assocGet]
    · simp [assocSet, hk, assocGet, ih]

theorem assocGet_assocSet_ne {κ α : Type} [DecidableEq κ] (l : List (κ × α)) {k k' : κ}
    (v : α) (h : k' ≠ k) : assocGet (assocSet l k v) k' = assocGet l k' := by
  have hks : k ≠ k' := Ne.symm h
  induction l with
  | nil => simp [assocSet, assocGet, hks]
  | cons p rest ih =>
    obtain ⟨pk, pv⟩ := p
    by_cases hk : pk = k
    · subst hk
      simp [assocSet, assocGet, hks]
    · simp [assocSet, hk, assocGet, ih]

theorem assocGet_assocDel_ne {κ α : Type} [DecidableEq κ] (l : List (κ × α)) {k k' : κ}
    (h : k' ≠ k) : assocGet (assocDel l k) k' = assocGet l k' := by
  have hks : k ≠ k' := Ne.symm h
  induction l with
  | nil => simp [assocDel]
  | cons p rest ih =>
    obtain ⟨pk, pv⟩ := p
    by_cases hk : pk = k
    · subst hk
      simp [assocDel, assocGet, hks]
    · simp [assocDel, hk, assocGet, ih]

theorem assocGet_eq_none_of_not_mem {κ α : Type} [DecidableEq κ] {l : List (κ × α)} {k : κ}
    (h : k ∉ l.map Prod.fst) : assocGet l k = none := by
  induction l with
  | nil => simp [assocGet]
  | cons p rest ih =>
    obtain ⟨pk, pv⟩ := p
    simp only [List.map_cons, List.mem_cons] at h
    push_neg at h
    have hne : pk ≠ k := Ne.symm h.1
    simp [assocGet, hne, ih h.2]

theorem mem_keys_of_assocGet {κ α : Type} [DecidableEq κ] {l : List (κ × α)} {k : κ} {v : α}
    (h : assocGet l k = some v) : k ∈ l.map Prod.fst := by
  by_contra hmem
  rw [assocGet_eq_none_of_not_mem hmem] at h
  exact Option.noConfusion h

theorem keys_assocSet_of_mem {κ α : Type} [DecidableEq κ] {l : List (κ × α)} {k : κ} (v : α)
    (h : k ∈ l.map Prod.fst) : (assocSet l k v).map Prod.fst = l.map Prod.fst := by
  induction l with
  | nil => simp at h
  | cons p rest ih =>
    obtain ⟨pk, pv⟩ := p
    by_cases hk : pk = k
    · simp [assocSet, hk]
    · simp only [List.map_cons, List.mem_cons] at h
      rcases h with h | h
      · exact absurd h.symm hk
      · simp [assocSet, hk, ih h]

theorem assocGet_assocDel_self {κ α : Type} [DecidableEq κ] {l : List (κ × α)} {k : κ}
    (h : (l.map Prod.fst).Nodup) : assocGet (assocDel l k) k = none := by
  induction l with
  | nil => simp [assocDel, assocGet]
  | cons p rest ih =>
    obtain ⟨pk, pv⟩ := p
    simp only [List.map_cons, List.nodup_cons] at h
    by_cases hk : pk = k
    · subst hk
      simpa [assocDel] using assocGet_eq_none_of_not_mem h.1
    · simp [assocDel, hk, assocGet, ih h.2]

/-- Families, manager and villagers of the concrete C8 example: family 0
holds villager 1; family 1 holds villagers 2 and 3. -/
def c8famA : Family := { family_id := 0, member_ids := [1], head_of_household := 1 }

def c8famB : Family := { family_id := 1, member_ids := [2, 3], head_of_household := 2 }

def c8mgr : FamilyManager := { families := [(0, c8famA), (1, c8famB)], next_id := 2 }

def c8va : Villager := { id := 1, family_id := 0 }

def c8vb : Villager := { id := 2, family_id := 1 }

/-- Claim C8 (amended): when both spouses belong to distinct existing
families, `form_marriage` moves only `villager_b` into A's family.  A's
family gains exactly `villager_b.id`, `villager_b`'s stored family id is
updated, and B's former family — minus `villager_b` alone — is deleted
from the manager only when that removal left it empty; any other members
of B's family stay behind in it. -/
theorem form_marriage_moves_only_spouse (mgr : FamilyManager) (va vb : Villager)
    (famA famB : Family)
    (hA : assocGet mgr.families va.family_id = some famA)
    (hB : assocGet mgr.families vb.family_id = some famB)
    (hAid : famA.family_id = va.family_id)
    (hBid : famB.family_id = vb.family_id)
    (hne : famA.family_id ≠ famB.family_id)
    (hnodup : (mgr.families.map Prod.fst).Nodup) :
    (mgr.form_marriage va vb).1 = famA.add_member vb.id ∧
      (mgr.form_marriage va vb).2.2.family_id = famA.family_id ∧
      assocGet (mgr.form_marriage va vb).2.1.families va.family_id =
        some (famA.add_member vb.id) ∧
      assocGet (mgr.form_marriage va vb).2.1.families vb.family_id =
        (if (famB.remove_member vb.id).member_ids = [] then none
         else some (famB.remove_member vb.id)) := by
  have hkey : va.family_id ≠ vb.family_id := by
    rw [← hAid, ← hBid]; exact hne
  have hvaB : va.family_id ≠ famB.family_id := by
    rw [← hAid]; exact hne
  have hmemA : va.family_id ∈ mgr.families.map Prod.fst := mem_keys_of_assocGet hA
  have hkeys1 : (assocSet mgr.families va.family_id (famA.add_member vb.id)).map Prod.fst =
      mgr.families.map Prod.fst := keys_assocSet_of_mem _ hmemA
  have hB1 : assocGet (assocSet mgr.families va.family_id (famA.add_member vb.id))
      vb.family_id = some famB := by
    rw [assocGet_assocSet_ne _ _ (Ne.symm hkey)]; exact hB
  have hmemB : vb.family_id ∈
      (assocSet mgr.families va.family_id (famA.add_member vb.id)).map Prod.fst :=
    mem_keys_of_assocGet hB1
  have hnodup2 : ((assocSet (assocSet mgr.families va.family_id (famA.add_member vb.id))
      vb.family_id (famB.remove_member vb.id)).map Prod.fst).Nodup := by
    rw [keys_assocSet_of_mem _ hmemB, hkeys1]; exact hnodup
  have hred : mgr.form_marriage va vb =
      (famA.add_member vb.id,
        { mgr with families :=
            (if (famB.remove_member vb.id).member_ids = [] then
              assocDel (assocSet (assocSet mgr.families va.family_id
                (famA.add_member vb.id)) vb.family_id (famB.remove_member vb.id))
                famB.family_id
            else
              assocSet (assocSet mgr.families va.family_id (famA.add_member vb.id))
                vb.family_id (famB.remove_member vb.id)) },
        { vb with family_id := famA.family_id }) := by
    simp only [FamilyManager.form_marriage, hA, hB, if_pos hne]
  rw [hred]
  refine ⟨rfl, rfl, ?_, ?_⟩
  · by_cases hempty : (famB.remove_member vb.id).member_ids = []
    · simp only [if_pos hempty]
      rw [assocGet_assocDel_ne _ hvaB, assocGet_assocSet_ne _ _ hkey,
        assocGet_assocSet_self]
    · simp only [if_neg hempty]
      rw [assocGet_assocSet_ne _ _ hkey, assocGet_assocSet_self]
  · by_cases hempty : (famB.remove_member vb.id).member_ids = []
    · simp only [if_pos hempty, hBid]
      exact assocGet_assocDel_self hnodup2
    · simp only [if_neg hempty]
      exact assocGet_assocSet_self _ _ _

/-- Witness for C8's amended theorem at the concrete two-family example. -/
theorem form_marriage_moves_only_spouse_witness :
    (c8mgr.form_marriage c8va c8vb).1 = c8famA.add_member c8vb.id :=
  (form_marriage_moves_only_spouse c8mgr c8va c8vb c8famA c8famB
    (by simp [c8mgr, c8va, assocGet]) (by simp [c8mgr, c8vb, assocGet])
    rfl rfl (by simp [c8famA, c8famB]) (by simp [c8mgr])).1

/-- Counterexample to C8 as frozen: with family 0 = [1] and family 1 =
[2, 3], `form_marriage(villager 1, villager 2)` leaves family 1 alive in
the manager (still holding member 3), and member 3 does not join the
surviving family — the two families do not merge. -/
theorem form_marriage_absorbed_family_persists :
    (assocGet (c8mgr.form_marriage c8va c8vb).2.1.families 1).isSome = true ∧
      3 ∉ ((c8mgr.form_marriage c8va c8vb).1).member_ids := by
  norm_num [c8mgr, c8va, c8vb, c8famA, c8famB, FamilyManager.form_marriage,
    Family.remove_member, Family.add_member, assocGet, assocSet, assocDel, List.erase]

/-- Every item stack the program builds sits under its own type's key. -/
def Inventory.stacksTyped (inv : Inventory) : Prop :=
  ∀ p ∈ inv.items, ∀ s ∈ p.2, s.item_type = p.1

theorem catalog_weight_pos : ∀ p ∈ ITEM_CATALOG, 0 < p.2.weight.getD 1 := by
  intro p hp
  fin_cases hp <;> norm_num

/-- Every item's per-unit weight is positive: catalog weights are positive
and the missing-entry default is 1. -/
theorem weight_per_unit_pos (i : Item) : 0 < i.weight_per_unit := by
  unfold Item.weight_per_unit catalogField
  cases h : assocGet ITEM_CATALOG i.item_type with
  | none => norm_num
  | some c => exact catalog_weight_pos (i.item_type, c) (assocGet_mem h)

theorem sum_map_mergeStack (stks : List Item) (item : Item)
    (hty : ∀ s ∈ stks, s.item_type = item.item_type) :
    ((mergeStack stks item).map Item.total_weight).sum =
      (stks.map Item.total_weight).sum + item.total_weight := by
  induction stks with
  | nil => simp [mergeStack]
  | cons s rest ih =>
    have hs : s.item_type = item.item_type := hty s (List.mem_cons_self _ _)
    by_cases hc : |s.quality - item.quality| < 1/20 ∧ ¬ item.is_tool
    · simp only [mergeStack, if_pos hc, List.map_cons, List.sum_cons]
      simp only [Item.total_weight, Item.weight_per_unit, hs]
      ring
    · simp only [mergeStack, if_neg hc, List.map_cons, List.sum_cons,
        ih (fun t ht => hty t (List.mem_cons_of_mem _ ht))]
      ring

theorem sum_insertStack (items : List (String × List Item)) (item : Item)
    (hwf : ∀ p ∈ items, ∀ s ∈ p.2, s.item_type = p.1) :
    ((insertStack items item).map (fun p => (p.2.map Item.total_weight).sum)).sum =
      (items.map (fun p => (p.2.map Item.total_weight).sum)).sum + item.total_weight := by
  induction items with
  | nil => simp [insertStack]
  | cons p rest ih =>
    obtain ⟨t, stks⟩ := p
    by_cases ht : t = item.item_type
    · subst ht
      have hstep : insertStack ((item.item_type, stks) :: rest) item =
          (item.item_type, mergeStack stks item) :: rest := by
        simp [insertStack]
      rw [hstep]
      simp only [List.map_cons, List.sum_cons]
      rw [sum_map_mergeStack stks item
        (fun s hsm => hwf (item.item_type, stks) (List.mem_cons_self _ _) s hsm)]
      ring
    · have hstep : insertStack ((t, stks) :: rest) item =
          (t, stks) :: insertStack rest item := by
        simp [insertStack, ht]
      rw [hstep]
      simp only [List.map_cons, List.sum_cons,
        ih (fun q hq => hwf q (List.mem_cons_of_mem _ hq))]
      ring

/-- Claim C4: starting from an inventory within capacity (whose stacks sit
under their own type keys, as the program maintains), `Inventory.add` never
leaves `total_weight` above `capacity`; an accepted overflowing add clips
the stored quantity so the total lands exactly on the capacity; and when
the clipped addable quantity falls below the minimal addable amount
(0.01 units) the add returns `False` with the inventory unchanged. -/
theorem total_weight_mk_quantity (it : Item) (q : ℚ) :
    Item.total_weight { it with quantity := q } = q * it.weight_per_unit := rfl

theorem inventory_add_respects_capacity (inv : Inventory) (item : Item)
    (hwf : inv.stacksTyped) (hcap : inv.total_weight ≤ inv.capacity) :
    (inv.add item).2.total_weight ≤ inv.capacity ∧
      (inv.total_weight + item.total_weight > inv.capacity → (inv.add item).1 = true →
        (inv.add item).2.total_weight = inv.capacity) ∧
      (inv.total_weight + item.total_weight > inv.capacity →
        (inv.capacity - inv.total_weight) / item.weight_per_unit < 1/100 →
        (inv.add item).1 = false ∧ (inv.add item).2 = inv) := by
  have hwpos := weight_per_unit_pos item
  have hfull : ∀ it : Item,
      ({ inv with items := insertStack inv.items it } : Inventory).total_weight =
        inv.total_weight + it.total_weight :=
    fun it => sum_insertStack inv.items it hwf
  unfold Inventory.add
  dsimp only
  split_ifs with h1 h2 h3
  · exact ⟨hcap, fun _ hc => by simp at hc, fun _ _ => ⟨rfl, rfl⟩⟩
  · exact ⟨hcap, fun _ hc => by simp at hc, fun _ _ => ⟨rfl, rfl⟩⟩
  · dsimp only
    have heq : inv.total_weight +
        ((inv.capacity - inv.total_weight) / item.weight_per_unit) *
          item.weight_per_unit = inv.capacity := by
      rw [div_mul_cancel₀ _ (ne_of_gt hwpos)]; ring
    refine ⟨?_, fun _ _ => ?_, fun _ hsmall => absurd hsmall h3⟩
    · rw [hfull, total_weight_mk_quantity]
      exact le_of_eq heq
    · rw [hfull, total_weight_mk_quantity]
      exact heq
  · dsimp only
    have h1' : inv.total_weight + item.total_weight ≤ inv.capacity := by
      push_neg at h1
      exact h1
    refine ⟨?_, fun hover _ => absurd hover (not_lt.mpr h1'),
      fun hover _ => absurd hover (not_lt.mpr h1')⟩
    rw [hfull]
    exact h1'

/-- The concrete C4 example: a 30 kg inventory holding one unit of stone
(15 kg) receiving two more units of stone (30 kg). -/
def c4inv : Inventory :=
  { items := [("stone", [{ item_type := "stone", quantity := 1 }])], capacity := 30 }

def c4item : Item := { item_type := "stone", quantity := 2 }

/-- Witness for C4 at the concrete example: after the clipped add the total
weight stays within (here: exactly at) the capacity. -/
theorem inventory_add_respects_capacity_witness :
    (c4inv.add c4item).2.total_weight ≤ c4inv.capacity :=
  (inventory_add_respects_capacity c4inv c4item
    (by norm_num [Inventory.stacksTyped, c4inv])
    (by simp [c4inv, Inventory.total_weight, Item.total_weight, Item.weight_per_unit,
        catalogField, ITEM_CATALOG, assocGet]
        norm_num)).1

/-- The concrete C10 family: the offerer holds `h` units of grain (with
`0.99 * 10 ≤ h < 10` committed as 10), the target holds one functional
stone axe. -/
def c10OffererInv (h : ℚ) : Inventory :=
  { items := [("grain", [{ item_type := "grain", quantity := h }])],
    capacity := 200, owner_type := "family" }

def c10TargetInv : Inventory :=
  { items := [("stone_axe",
      [{ item_type := "stone_axe", quantity := 1, current_durability := 50, max_durability := 50 }])],
    capacity := 200, owner_type := "family" }

def c10Offer : TradeOffer :=
  { offering := [("grain", 10)], requesting := [("stone_axe", 1)],
    offerer_id := 1, target_id := 2 }

/-- Claim C10: when the offerer holds at least 99% but less than 100% of a
committed quantity, `execute_trade`'s verification accepts the trade, it
returns `True`, the trade is recorded with the full committed quantities
(10 grain) and counted in full (11 items), while the actual transfer moves
only the `h < 10` units the inventory could supply — the offerer is
drained to zero and the target receives exactly `h`, with no failure
signalled to either party. -/
theorem execute_trade_tolerance_partial_transfer (h : ℚ)
    (hge : 99/10 ≤ h) (hlt : h < 10) :
    (execute_trade {} c10Offer (c10OffererInv h) c10TargetInv 3).1 = true ∧
      (execute_trade {} c10Offer (c10OffererInv h) c10TargetInv 3).2.1.total_of "grain" = 0 ∧
      (execute_trade {} c10Offer (c10OffererInv h) c10TargetInv 3).2.2.1.total_of "grain" = h ∧
      (execute_trade {} c10Offer (c10OffererInv h) c10TargetInv 3).2.2.2.daily_trades =
        [{ day := 3, offerer_id := 1, target_id := 2,
           items_offered := [("grain", 10)], items_received := [("stone_axe", 1)] }] ∧
      (execute_trade {} c10Offer (c10OffererInv h) c10TargetInv 3).2.2.2.total_items_exchanged
        = 11 := by
  have hpos : (0 : ℚ) < h := by linarith
  have hne : h ≠ 0 := ne_of_gt hpos
  have hnle : ¬ (h : ℚ) ≤ 0 := by linarith
  have hver2 : ¬ h < 10 * (99/100) := by norm_num; linarith
  have hv2 : ¬ (1 : ℚ) < 99 / 100 := by norm_num
  have hf1 : ¬ (200 : ℚ) < 2 + h := by linarith
  have hf2 : ¬ (200 : ℚ) ≤ 2 := by norm_num
  have hq1 : ¬ (1 : ℚ) ≤ 0 := by norm_num
  have hf3 : ¬ (200 : ℚ) < 2 := by norm_num
  simp [hver2, hv2, hf1, hf2, hq1, hf3, execute_trade, c10Offer, c10OffererInv,
    c10TargetInv, Inventory.total_of, Inventory.remove, Inventory.add, removeLoop,
    transferAll, assocGet, assocSet, assocDel, insertStack, mergeStack,
    Inventory.total_weight, Item.total_weight, Item.weight_per_unit, Item.is_tool,
    get_tool_type, catalogField, ITEM_CATALOG, min_eq_right hlt.le, hpos, hne, hnle,
    mul_div_assoc, div_self hne]
  norm_num

/-- Witness for C10 at 9.95 units of grain held against 10 committed. -/
theorem execute_trade_tolerance_partial_transfer_witness :
    (execute_trade {} c10Offer (c10OffererInv (199/20)) c10TargetInv 3).1 = true ∧
      (execute_trade {} c10Offer (c10OffererInv (199/20)) c10TargetInv 3).2.1.total_of
        "grain" = 0 ∧
      (execute_trade {} c10Offer (c10OffererInv (199/20)) c10TargetInv 3).2.2.1.total_of
        "grain" = 199/20 ∧
      (execute_trade {} c10Offer (c10OffererInv (199/20)) c10TargetInv 3).2.2.2.daily_trades =
        [{ day := 3, offerer_id := 1, target_id := 2,
           items_offered := [("grain", 10)], items_received := [("stone_axe", 1)] }] ∧
      (execute_trade {} c10Offer (c10OffererInv (199/20))
        c10TargetInv 3).2.2.2.total_items_exchanged = 11 :=
  execute_trade_tolerance_partial_transfer (199/20) (by norm_num) (by norm_num)

theorem orderedInsert_self_replicate (x : ℚ) (n : ℕ) :
    List.orderedInsert (· ≤ ·) x (List.replicate n x) = List.replicate (n + 1) x := by
  cases n with
  | zero => rfl
  | succ m => simp [List.replicate_succ, List.orderedInsert, le_refl]

theorem insertionSort_replicate (x : ℚ) (n : ℕ) :
    List.insertionSort (· ≤ ·) (List.replicate n x) = List.replicate n x := by
  induction n with
  | zero => rfl
  | succ m ih =>
    rw [List.replicate_succ, List.insertionSort, ih, orderedInsert_self_replicate,
      List.replicate_succ]

theorem rankWeightedSum_replicate (x : ℚ) (n : ℕ) :
    ∀ i : ℕ, rankWeightedSum (List.replicate n x) i =
      x * ((n : ℚ) * i + (n : ℚ) * ((n : ℚ) + 1) / 2) := by
  induction n with
  | zero => intro i; simp [rankWeightedSum]
  | succ m ih =>
    intro i
    rw [List.replicate_succ]
    simp only [rankWeightedSum, ih (i + 1)]
    push_cast
    ring

theorem rankWeightedSum_map_mul (c : ℚ) (l : List ℚ) :
    ∀ i : ℕ, rankWeightedSum (l.map (fun v => c * v)) i = c * rankWeightedSum l i := by
  induction l with
  | nil => intro i; simp [rankWeightedSum]
  | cons v rest ih =>
    intro i
    simp only [List.map_cons, rankWeightedSum, ih (i + 1)]
    ring

theorem orderedInsert_map_mul {c : ℚ} (hc : 0 < c) (a : ℚ) (l : List ℚ) :
    List.orderedInsert (· ≤ ·) (c * a) (l.map (fun v => c * v)) =
      (List.orderedInsert (· ≤ ·) a l).map (fun v => c * v) := by
  induction l with
  | nil => rfl
  | cons b rest ih =>
    by_cases hab : a ≤ b
    · simp only [List.map_cons, List.orderedInsert,
        if_pos ((mul_le_mul_left hc).mpr hab), if_pos hab]
    · have : ¬ c * a ≤ c * b := fun hcc => hab ((mul_le_mul_left hc).mp hcc)
      simp only [List.map_cons, List.orderedInsert, if_neg this, if_neg hab, ih]

theorem insertionSort_map_mul {c : ℚ} (hc : 0 < c) (l : List ℚ) :
    List.insertionSort (· ≤ ·) (l.map (fun v => c * v)) =
      (List.insertionSort (· ≤ ·) l).map (fun v => c * v) := by
  induction l with
  | nil => rfl
  | cons a rest ih =>
    simp only [List.map_cons, List.insertionSort, ih, orderedInsert_map_mul hc]

theorem list_sum_map_mul (c : ℚ) (l : List ℚ) : (l.map (fun v => c * v)).sum = c * l.sum := by
  induction l with
  | nil => simp
  | cons a rest ih => simp [ih]; ring

theorem all_zero_of_sum_eq_zero {l : List ℚ} (hpos : ∀ v ∈ l, 0 ≤ v) (hsum : l.sum = 0) :
    ∀ v ∈ l, v = 0 := by
  induction l with
  | nil => intro v hv; simp at hv
  | cons a rest ih =>
    have ha : 0 ≤ a := hpos a (List.mem_cons_self _ _)
    have hrest : ∀ v ∈ rest, 0 ≤ v := fun v hv => hpos v (List.mem_cons_of_mem _ hv)
    have hrsum : 0 ≤ rest.sum := List.sum_nonneg hrest
    simp only [List.sum_cons] at hsum
    have ha0 : a = 0 := by linarith
    have hr0 : rest.sum = 0 := by linarith
    intro v hv
    rcases List.mem_cons.mp hv with rfl | hv
    · exact ha0
    · exact ih hrest hr0 v hv

/-- Claim C9: `gini_coefficient` returns 0 on the empty list, 0 on every
constant list, is invariant under scaling all values by the same positive
constant, returns 0 on all-zero input, and otherwise (nonempty, not all
zero, taken over nonnegative wealth values as at its call site) equals the
rank-weighted formula `2·Σ((i+1)·x_i)/(n·Σx_i) − (n+1)/n` over the
ascending-sorted values. -/
theorem gini_coefficient_spec :
    gini_coefficient [] = 0 ∧
      (∀ (n : ℕ) (x : ℚ), gini_coefficient (List.replicate n x) = 0) ∧
      (∀ (c : ℚ) (values : List ℚ), 0 < c →
        gini_coefficient (values.map (fun v => c * v)) = gini_coefficient values) ∧
      (∀ values : List ℚ, values.all (· = 0) → gini_coefficient values = 0) ∧
      (∀ values : List ℚ, (∀ v ∈ values, 0 ≤ v) → values ≠ [] →
        ¬ values.all (· = 0) →
        gini_coefficient values =
          2 * rankWeightedSum (values.insertionSort (· ≤ ·)) 0 /
              (((values.insertionSort (· ≤ ·)).length : ℚ) *
                (values.insertionSort (· ≤ ·)).sum) -
            (((values.insertionSort (· ≤ ·)).length : ℚ) + 1) /
              ((values.insertionSort (· ≤ ·)).length : ℚ)) := by
  refine ⟨rfl, ?_, ?_, ?_, ?_⟩
  · -- constant lists
    intro n x
    cases n with
    | zero => rfl
    | succ m =>
      by_cases hx : x = 0
      · subst hx
        have : (List.replicate (m + 1) (0 : ℚ)).all (· = 0) := by
          simp [List.all_eq_true]
        simp [gini_coefficient, this]
      · have hne : ¬ ((List.replicate (m + 1) x).isEmpty ∨
            (List.replicate (m + 1) x).all (· = 0)) := by
          simp [List.all_eq_true, List.isEmpty, List.replicate_succ, hx]
        rw [gini_coefficient, if_neg hne]
        simp only [insertionSort_replicate]
        have hlen : (List.replicate (m + 1) x).length = m + 1 := List.length_replicate _ _
        have hsum : (List.replicate (m + 1) x).sum = ((m : ℚ) + 1) * x := by
          rw [List.sum_replicate, nsmul_eq_mul]
          push_cast
          ring
        have htotne : ((m : ℚ) + 1) * x ≠ 0 :=
          mul_ne_zero (by positivity) hx
        rw [hsum, if_neg htotne, rankWeightedSum_replicate, hlen]
        have hm1 : ((m : ℚ) + 1) ≠ 0 := by positivity
        push_cast
        field_simp
        ring
  · -- positive scaling invariance
    intro c values hc
    have hcne : c ≠ 0 := ne_of_gt hc
    by_cases hguard : values.isEmpty ∨ values.all (· = 0)
    · have hguard' : (values.map (fun v => c * v)).isEmpty ∨
          (values.map (fun v => c * v)).all (· = 0) := by
        rcases hguard with hg | hg
        · left; simpa using hg
        · right
          simp only [List.all_eq_true] at hg ⊢
          intro v hv
          rcases List.mem_map.mp hv with ⟨w, hw, rfl⟩
          simp [hg w hw]
      rw [gini_coefficient, if_pos hguard', gini_coefficient, if_pos hguard]
    · have hguard' : ¬ ((values.map (fun v => c * v)).isEmpty ∨
          (values.map (fun v => c * v)).all (· = 0)) := by
        rcases not_or.mp hguard with ⟨hg1, hg2⟩
        refine not_or.mpr ⟨by simpa using hg1, ?_⟩
        intro hall
        apply hg2
        simp only [List.all_eq_true] at hall ⊢
        intro v hv
        have := hall (c * v) (List.mem_map.mpr ⟨v, hv, rfl⟩)
        simp only [decide_eq_true_eq] at this ⊢
        rcases mul_eq_zero.mp this with h | h
        · exact absurd h hcne
        · exact h
      rw [gini_coefficient, if_neg hguard', gini_coefficient, if_neg hguard]
      simp only [insertionSort_map_mul hc, List.length_map, list_sum_map_mul,
        rankWeightedSum_map_mul]
      by_cases htot : (values.insertionSort (· ≤ ·)).sum = 0
      · rw [htot, mul_zero, if_pos rfl, if_pos rfl]
      · have hctot : c * (values.insertionSort (· ≤ ·)).sum ≠ 0 :=
          mul_ne_zero hcne htot
        rw [if_neg hctot, if_neg htot]
        congr 1
        rw [show ((2 : ℚ) * (c * rankWeightedSum (values.insertionSort (· ≤ ·)) 0)) =
            c * (2 * rankWeightedSum (values.insertionSort (· ≤ ·)) 0) from by ring,
          show (((values.insertionSort (· ≤ ·)).length : ℚ) *
              (c * (values.insertionSort (· ≤ ·)).sum)) =
            c * (((values.insertionSort (· ≤ ·)).length : ℚ) *
              (values.insertionSort (· ≤ ·)).sum) from by ring,
          mul_div_mul_left _ _ hcne]
  · -- all-zero input
    intro values hall
    simp [gini_coefficient, hall]
  · -- the rank-weighted formula on nonnegative, not-all-zero input
    intro values hpos hne hall
    have hguard : ¬ (values.isEmpty ∨ values.all (· = 0)) := by
      refine not_or.mpr ⟨?_, hall⟩
      simpa [List.isEmpty_iff] using hne
    rw [gini_coefficient, if_neg hguard]
    have hperm : List.Perm (values.insertionSort (· ≤ ·)) values :=
      List.perm_insertionSort _ _
    have hsum_eq : (values.insertionSort (· ≤ ·)).sum = values.sum := hperm.sum_eq
    have htot : (values.insertionSort (· ≤ ·)).sum ≠ 0 := by
      rw [hsum_eq]
      intro hzero
      apply hall
      simp only [List.all_eq_true, decide_eq_true_eq]
      exact all_zero_of_sum_eq_zero hpos hzero
    rw [if_neg htot]

/-- Witness for C9 at concrete inputs: a constant list and a doubled
list. -/
theorem gini_coefficient_spec_witness :
    gini_coefficient (List.replicate 3 (5 : ℚ)) = 0 ∧
      gini_coefficient ([1, 3].map (fun v => (2 : ℚ) * v)) = gini_coefficient [1, 3] :=
  ⟨gini_coefficient_spec.2.1 3 5, gini_coefficient_spec.2.2.1 2 [1, 3] (by norm_num)⟩

/-- The per-category tool search of `_evaluate_activity`: personal
inventory first, then the family inventory. -/
def toolCandidate (inv family_inv : Option Inventory) (tool_type : String) : Option Item :=
  let tool := match inv with | some i => i.get_best_tool tool_type | none => none
  match tool with
  | none => match family_inv with | some f => f.get_best_tool tool_type | none => none
  | some t => some t

/-- A functional tool of this category is available to the agent (in the
personal or family inventory). -/
def tool_found (inv family_inv : Option Inventory) (tool_type : String) : Bool :=
  (toolCandidate inv family_inv tool_type).isSome

theorem findFirstTool_cons (inv family_inv : Option Inventory) (t : String)
    (rest : List String) :
    findFirstTool inv family_inv (t :: rest) =
      (match toolCandidate inv family_inv t with
       | some x => some x
       | none => findFirstTool inv family_inv rest) := rfl

theorem findFirstTool_eq_none_iff (inv family_inv : Option Inventory) (ts : List String) :
    findFirstTool inv family_inv ts = none ↔
      ∀ t ∈ ts, tool_found inv family_inv t = false := by
  induction ts with
  | nil => simp [findFirstTool]
  | cons t rest ih =>
    rw [findFirstTool_cons]
    cases hc : toolCandidate inv family_inv t with
    | some x => simp [tool_found, hc]
    | none => simp [tool_found, hc, ih]

/-- Claim C5 (amended): for an activity whose other gates pass (enough
time, no season restriction, no resource requirement) and that requires at
least one tool category, `_evaluate_activity` admits the activity iff a
functional tool of SOME required category is available — the search stops
at the first category with a tool, so categories without tools do not
exclude the activity; it is excluded only when EVERY required category
lacks a tool. -/
theorem evaluate_activity_tool_gate (villager : Villager) (activity : Activity)
    (world_state : WorldState) (remaining_hours : ℚ) (urgencies : List (String × ℝ))
    (current_schedule : List ActivityPlan) (noise_draw : ℝ)
    (hres : activity.resource_type = none)
    (hseason : activity.required_season = none)
    (htime : ¬ (activity.base_hours > remaining_hours ∧ activity.base_hours > 0))
    (htools : activity.required_tools ≠ []) :
    (evaluate_activity villager activity world_state remaining_hours urgencies
        current_schedule noise_draw).isSome = true ↔
      ∃ t ∈ activity.required_tools,
        tool_found villager.personal_inventory
          (world_state.get_family_inventory villager.family_id) t = true := by
  rw [evaluate_activity, if_neg htime]
  simp only [hseason]
  rw [if_neg (by simp : ¬ (false : Bool) = true)]
  cases hfft : findFirstTool villager.personal_inventory
      (world_state.get_family_inventory villager.family_id) activity.required_tools with
  | none =>
    rw [if_pos ⟨htools, rfl⟩]
    simp only [Option.isSome_none, Bool.false_eq_true, false_iff]
    rintro ⟨t, htmem, htf⟩
    have := (findFirstTool_eq_none_iff _ _ _).mp hfft t htmem
    rw [htf] at this
    exact Bool.noConfusion this
  | some tl =>
    rw [if_neg (by
      rintro ⟨_, hnone⟩
      exact Option.noConfusion hnone)]
    simp only [hres, Option.isSome_some, true_iff]
    by_contra hnone
    push_neg at hnone
    have : findFirstTool villager.personal_inventory
        (world_state.get_family_inventory villager.family_id) activity.required_tools =
        none := by
      rw [findFirstTool_eq_none_iff]
      intro t ht
      simpa using hnone t ht
    rw [hfft] at this
    exact Option.noConfusion this

/-- The concrete C5 agent: a villager whose personal inventory holds only a
functional stone axe; the world has no family inventories or resources. -/
def c5Axe : Item :=
  { item_type := "stone_axe", quantity := 1, current_durability := 50, max_durability := 50 }

def c5Villager : Villager :=
  { id := 1, family_id := 0,
    personal_inventory := some { items := [("stone_axe", [c5Axe])], capacity := 30 } }

def c5World : WorldState :=
  { season := "spring", weather_modifier := 1,
    find_resource := fun _ _ => none, estimate_travel := fun _ _ => 0,
    family_inventories := [] }

/-- The catalog's `build_shelter` activity (requires both an axe and a
construction tool). -/
def c5BuildShelter : Activity := (assocGet ACTIVITIES "build_shelter").getD { name := "" }

/-- Counterexample to C5 as frozen: `build_shelter` requires the tool
categories axe AND construction; an agent holding only an axe (no
construction tool anywhere) is still admitted by the feasibility gate. -/
theorem evaluate_activity_admits_missing_tool_category :
    c5BuildShelter.required_tools = ["axe", "construction"] ∧
      (evaluate_activity c5Villager c5BuildShelter c5World 10 [] [] 0).isSome = true ∧
      tool_found c5Villager.personal_inventory
        (c5World.get_family_inventory c5Villager.family_id) "construction" = false := by
  refine ⟨by simp [c5BuildShelter, ACTIVITIES, assocGet], ?_, ?_⟩
  · have ht : ¬ ((8 : ℚ) > 10 ∧ (8 : ℚ) > 0) := by norm_num
    simp [evaluate_activity, c5Villager, c5Axe, c5BuildShelter, c5World, ACTIVITIES,
      assocGet, findFirstTool, toolCandidate, Inventory.get_best_tool, betterTool,
      Item.tool_type, get_tool_type, ITEM_CATALOG, WorldState.get_family_inventory, ht]
    norm_num
  · simp [tool_found, toolCandidate, c5Villager, c5Axe, c5World, Inventory.get_best_tool,
      betterTool, Item.tool_type, get_tool_type, ITEM_CATALOG, assocGet,
      WorldState.get_family_inventory]

/-- Witness for C5's amended theorem at the concrete axe-only agent. -/
theorem evaluate_activity_tool_gate_witness :
    (evaluate_activity c5Villager c5BuildShelter c5World 10 [] [] 0).isSome = true ↔
      ∃ t ∈ c5BuildShelter.required_tools,
        tool_found c5Villager.personal_inventory
          (c5World.get_family_inventory c5Villager.family_id) t = true :=
  evaluate_activity_tool_gate c5Villager c5BuildShelter c5World 10 [] [] 0
    (by simp [c5BuildShelter, ACTIVITIES, assocGet])
    (by simp [c5BuildShelter, ACTIVITIES, assocGet])
    (by simp [c5BuildShelter, ACTIVITIES, assocGet]
        norm_num)
    (by simp [c5BuildShelter, ACTIVITIES, assocGet])

-- =====================================================================
-- Claim C6 — subjective value of food versus hunger satisfaction
-- =====================================================================

/-- A villager with hunger satisfaction overwritten, everything else
(inventory, traits, skills, the other needs) held fixed. -/
def vWithHunger (v : Villager) (h : ℚ) : Villager :=
  { v with needs := v.needs.with_satisfaction "hunger" h }

/-- The hunger multiplier applied to a food item's value in
`subjective_value` (trade.py lines 86-89). -/
def hungerMult (hsat : ℚ) : ℚ :=
  if hsat < 1/2 then 1 + (1/2 - hsat) * (TRADE_VALUE_FOOD_HUNGRY_MULTIPLIER - 1) * 2
  else 1

/-- The shelf-life factor applied to a food item's value in
`subjective_value` (trade.py lines 93-96). -/
def perishFactor (t : String) : ℚ :=
  let perish_days : ℕ := catalogField t (fun c => c.perish_days) 999
  if perish_days < 999 then 7/10 + 3/10 * min 1 ((perish_days : ℚ) / 60) else 1

/-- The clothing factor of `subjective_value` (trade.py lines 117-121). -/
def warmthFactor (v : Villager) (t : String) : ℚ :=
  if catalogField t (fun c => c.warmth_value) 0 > 0 then
    (if (v.needs.get "warmth").satisfaction < 1/2 then 2 else 1)
  else 1

/-- The medicine factor of `subjective_value` (trade.py lines 124-128). -/
def healFactor (v : Villager) (t : String) : ℚ :=
  if catalogField t (fun c => c.heal_value) 0 > 0 then
    (if (v.needs.get "health").satisfaction < 7/10 then 5/2 else 1)
  else 1

/-- `owned` — the combined family-plus-personal quantity read by the
diminishing-marginal-value step of `subjective_value`. -/
def ownedOf (v : Villager) (t : String) (fi : Option Inventory) : ℚ :=
  (match fi with | some i => i.total_of t | none => 0) +
  (match v.personal_inventory with | some inv => inv.total_of t | none => 0)

/-- The diminishing-marginal-value factor of `subjective_value`. -/
def ownedFactor (v : Villager) (t : String) (fi : Option Inventory) : ℚ :=
  if ownedOf v t fi > 0 then 1 / (1 + ownedOf v t fi * TRADE_DIMINISHING_SURPLUS_FACTOR)
  else 1

set_option maxHeartbeats 1600000 in
/-- For a food item that is not a tool, `subjective_value_base` factors as
food value times hunger multiplier times the hunger-independent factors. -/
theorem subjective_value_base_food_factor (v : Villager) (t : String)
    (fi : Option Inventory)
    (hfood : 0 < catalogField t (fun c => c.food_value) 0)
    (htool : get_tool_type t = none) :
    subjective_value_base v t fi =
      catalogField t (fun c => c.food_value) 0 *
        hungerMult ((v.needs.get "hunger").satisfaction) * 2 *
        perishFactor t * warmthFactor v t * healFactor v t * ownedFactor v t fi := by
  simp only [subjective_value_base, htool, hungerMult, perishFactor, warmthFactor,
    healFactor, ownedFactor, ownedOf]
  rw [if_pos hfood]
  split_ifs <;> ring

theorem assocGet_with_satisfaction_ne (ns : NeedSystem) (name key : String)
    (val : ℚ) (hne : key ≠ name) :
    assocGet (ns.with_satisfaction name val).needs key = assocGet ns.needs key := by
  obtain ⟨l⟩ := ns
  show assocGet (l.map fun p =>
      if p.1 = name then (p.1, { p.2 with satisfaction := val }) else p) key =
    assocGet l key
  induction l with
  | nil => rfl
  | cons p rest ih =>
    obtain ⟨pk, pv⟩ := p
    show assocGet ((if pk = name then (pk, { pv with satisfaction := val }) else (pk, pv)) ::
        List.map (fun p =>
          if p.1 = name then (p.1, { p.2 with satisfaction := val }) else p) rest) key =
      assocGet ((pk, pv) :: rest) key
    by_cases hpk : pk = name
    · have h1 : ¬ pk = key := fun hh => hne (hh ▸ hpk)
      rw [if_pos hpk]
      simp only [assocGet]
      rw [if_neg h1, if_neg h1]
      exact ih
    · rw [if_neg hpk]
      simp only [assocGet]
      by_cases hpk2 : pk = key
      · rw [if_pos hpk2, if_pos hpk2]
      · rw [if_neg hpk2, if_neg hpk2]
        exact ih

theorem assocGet_with_satisfaction_self (ns : NeedSystem) (name : String) (val : ℚ) :
    assocGet (ns.with_satisfaction name val).needs name =
      (assocGet ns.needs name).map (fun n => { n with satisfaction := val }) := by
  obtain ⟨l⟩ := ns
  show assocGet (l.map fun p =>
      if p.1 = name then (p.1, { p.2 with satisfaction := val }) else p) name =
    (assocGet l name).map (fun n => { n with satisfaction := val })
  induction l with
  | nil => rfl
  | cons p rest ih =>
    obtain ⟨pk, pv⟩ := p
    show assocGet ((if pk = name then (pk, { pv with satisfaction := val }) else (pk, pv)) ::
        List.map (fun p =>
          if p.1 = name then (p.1, { p.2 with satisfaction := val }) else p) rest) name =
      (assocGet ((pk, pv) :: rest) name).map (fun n => { n with satisfaction := val })
    by_cases hpk : pk = name
    · rw [if_pos hpk]
      simp only [assocGet]
      rw [if_pos hpk, if_pos hpk]
      rfl
    · rw [if_neg hpk]
      simp only [assocGet]
      rw [if_neg hpk, if_neg hpk]
      exact ih

theorem needs_get_with_satisfaction_ne (ns : NeedSystem) (name key : String)
    (val : ℚ) (hne : key ≠ name) :
    (ns.with_satisfaction name val).get key = ns.get key := by
  simp [NeedSystem.get, assocGet_with_satisfaction_ne ns name key val hne]

theorem needs_get_with_satisfaction_self_sat (ns : NeedSystem) (name : String)
    (val : ℚ) (hsome : ∃ n, assocGet ns.needs name = some n) :
    ((ns.with_satisfaction name val).get name).satisfaction = val := by
  obtain ⟨n, hn⟩ := hsome
  simp [NeedSystem.get, assocGet_with_satisfaction_self, hn]

theorem warmthFactor_vWithHunger (v : Villager) (h : ℚ) (t : String) :
    warmthFactor (vWithHunger v h) t = warmthFactor v t := by
  simp [warmthFactor, vWithHunger,
    needs_get_with_satisfaction_ne v.needs "hunger" "warmth" h (by decide)]

theorem healFactor_vWithHunger (v : Villager) (h : ℚ) (t : String) :
    healFactor (vWithHunger v h) t = healFactor v t := by
  simp [healFactor, vWithHunger,
    needs_get_with_satisfaction_ne v.needs "hunger" "health" h (by decide)]

/-- The hunger multiplier is strictly decreasing on satisfactions up to 0.5. -/
theorem hungerMult_strict_anti (h1 h2 : ℚ) (hlt : h1 < h2) (hle : h2 ≤ 1/2) :
    hungerMult h2 < hungerMult h1 := by
  have h1half : h1 < 1/2 := lt_of_lt_of_le hlt hle
  unfold hungerMult TRADE_VALUE_FOOD_HUNGRY_MULTIPLIER
  rw [if_pos h1half]
  by_cases h2half : h2 < 1/2
  · rw [if_pos h2half]; linarith
  · rw [if_neg h2half]; linarith

theorem perishFactor_pos (t : String) : 0 < perishFactor t := by
  simp only [perishFactor]
  split_ifs with hp
  · have hm : (0 : ℚ) ≤
        min 1 (((catalogField t (fun c => c.perish_days) 999 : ℕ) : ℚ) / 60) :=
      le_min (by norm_num) (by positivity)
    linarith
  · norm_num

theorem warmthFactor_pos (v : Villager) (t : String) : 0 < warmthFactor v t := by
  unfold warmthFactor
  split_ifs <;> norm_num

theorem healFactor_pos (v : Villager) (t : String) : 0 < healFactor v t := by
  unfold healFactor
  split_ifs <;> norm_num

theorem ownedFactor_pos (v : Villager) (t : String) (fi : Option Inventory)
    (how : 0 ≤ ownedOf v t fi) : 0 < ownedFactor v t fi := by
  unfold ownedFactor TRADE_DIMINISHING_SURPLUS_FACTOR
  split_ifs with h
  · have hden : (0 : ℚ) < 1 + ownedOf v t fi * (1/2) := by linarith
    exact div_pos one_pos hden
  · norm_num

theorem skill_supply_factor_pos (v : Villager) (t : String) :
    0 < skill_supply_factor v t := by
  simp only [skill_supply_factor]
  split_ifs <;>
    first
      | exact lt_of_lt_of_le (by norm_num) (le_max_left _ _)
      | norm_num

theorem subjective_value_base_hunger_anti (v : Villager) (t : String)
    (fi : Option Inventory) (h1 h2 : ℚ)
    (hfood : 0 < catalogField t (fun c => c.food_value) 0)
    (htool : get_tool_type t = none)
    (how : 0 ≤ ownedOf v t fi)
    (hsome : ∃ n, assocGet v.needs.needs "hunger" = some n)
    (hlt : h1 < h2) (hle : h2 ≤ 1/2) :
    subjective_value_base (vWithHunger v h2) t fi <
      subjective_value_base (vWithHunger v h1) t fi := by
  rw [subjective_value_base_food_factor (vWithHunger v h1) t fi hfood htool,
    subjective_value_base_food_factor (vWithHunger v h2) t fi hfood htool,
    warmthFactor_vWithHunger, warmthFactor_vWithHunger,
    healFactor_vWithHunger, healFactor_vWithHunger]
  have hof1 : ownedFactor (vWithHunger v h1) t fi = ownedFactor v t fi := rfl
  have hof2 : ownedFactor (vWithHunger v h2) t fi = ownedFactor v t fi := rfl
  rw [hof1, hof2]
  have hs1 : (((vWithHunger v h1).needs).get "hunger").satisfaction = h1 :=
    needs_get_with_satisfaction_self_sat v.needs "hunger" h1 hsome
  have hs2 : (((vWithHunger v h2).needs).get "hunger").satisfaction = h2 :=
    needs_get_with_satisfaction_self_sat v.needs "hunger" h2 hsome
  rw [hs1, hs2]
  have hmono := hungerMult_strict_anti h1 h2 hlt hle
  have hpf := perishFactor_pos t
  have hwf := warmthFactor_pos v t
  have hhf := healFactor_pos v t
  have hof := ownedFactor_pos v t fi how
  have key : ∀ hm : ℚ, catalogField t (fun c => c.food_value) 0 * hm * 2 *
      perishFactor t * warmthFactor v t * healFactor v t * ownedFactor v t fi =
      hm * (catalogField t (fun c => c.food_value) 0 * 2 * perishFactor t *
        warmthFactor v t * healFactor v t * ownedFactor v t fi) := by
    intro hm
    ring
  rw [key, key]
  refine mul_lt_mul_of_pos_right hmono ?_
  have h2pos : (0 : ℚ) < 2 := by norm_num
  exact mul_pos (mul_pos (mul_pos (mul_pos (mul_pos hfood h2pos) hpf) hwf) hhf) hof

/-- C6: holding everything else fixed, a food item that is not a tool is
valued strictly more by a strictly hungrier villager — provided both hunger
satisfactions are at most 0.5 (the hunger multiplier's active region) and the
0.01 value floor is not binding. -/
theorem subjective_value_food_hunger_strict (v : Villager) (t : String) (q : ℚ)
    (fi : Option Inventory) (h1 h2 : ℚ)
    (hfood : 0 < catalogField t (fun c => c.food_value) 0)
    (htool : get_tool_type t = none)
    (how : 0 ≤ ownedOf v t fi)
    (hsome : ∃ n, assocGet v.needs.needs "hunger" = some n)
    (hq : 0 < q)
    (hlt : h1 < h2) (hle : h2 ≤ 1/2)
    (hfloor : (1/100 : ℝ) < subjective_value (vWithHunger v h2) t q fi) :
    subjective_value (vWithHunger v h2) t q fi <
      subjective_value (vWithHunger v h1) t q fi := by
  have hbase := subjective_value_base_hunger_anti v t fi h1 h2 hfood htool how hsome hlt hle
  have hssf1 : skill_supply_factor (vWithHunger v h1) t = skill_supply_factor v t := rfl
  have hssf2 : skill_supply_factor (vWithHunger v h2) t = skill_supply_factor v t := rfl
  have hspos := skill_supply_factor_pos v t
  have hraw : (subjective_value_base (vWithHunger v h2) t fi : ℝ) *
      skill_supply_factor v t * (q : ℝ) <
      (subjective_value_base (vWithHunger v h1) t fi : ℝ) *
      skill_supply_factor v t * (q : ℝ) := by
    refine mul_lt_mul_of_pos_right ?_ (by exact_mod_cast hq)
    exact mul_lt_mul_of_pos_right (by exact_mod_cast hbase) hspos
  unfold subjective_value at hfloor ⊢
  rw [hssf1, hssf2] at *
  have h2raw : (1/100 : ℝ) < (subjective_value_base (vWithHunger v h2) t fi : ℝ) *
      skill_supply_factor v t * (q : ℝ) :=
    (lt_max_iff.mp hfloor).resolve_left (lt_irrefl _)
  rw [max_eq_right (le_of_lt h2raw), max_eq_right (le_of_lt (lt_trans h2raw hraw))]
  exact hraw

/-- A plain villager for the C6 instances: default traits, the initial need
system, no personal inventory. -/
def c6V : Villager := { id := 0 }

theorem subjective_value_food_hunger_strict_witness :
    subjective_value (vWithHunger c6V (1/2)) "bread" 1 none <
      subjective_value (vWithHunger c6V (1/10)) "bread" 1 none := by
  refine subjective_value_food_hunger_strict c6V "bread" 1 none (1/10) (1/2)
    (by simp [catalogField, ITEM_CATALOG, assocGet] <;> norm_num)
    (by simp [get_tool_type, ITEM_CATALOG, assocGet])
    (by norm_num [ownedOf, c6V])
    ⟨{ name := "hunger", satisfaction := 1, decay_rate := 35/100, weight := 10, urgency_curve := "exponential" }, by simp [c6V, NeedSystem.init, assocGet]⟩
    (by norm_num) (by norm_num) (by norm_num) ?_
  have hssf : skill_supply_factor (vWithHunger c6V (1/2)) "bread" = 1 := by
    simp [skill_supply_factor]
  have hb : subjective_value_base (vWithHunger c6V (1/2)) "bread" none = 29/20 := by
    simp [subjective_value_base, vWithHunger, c6V, catalogField, ITEM_CATALOG,
      assocGet, get_tool_type, NeedSystem.get, NeedSystem.with_satisfaction,
      NeedSystem.init, TRADE_VALUE_FOOD_HUNGRY_MULTIPLIER,
      TRADE_DIMINISHING_SURPLUS_FACTOR]
    norm_num
  unfold subjective_value
  rw [hssf, hb]
  refine lt_max_of_lt_right ?_
  norm_num

/-- C6 counterexample: "bread" is a food item, yet its subjective value is
the same at hunger satisfaction 0.9 and 0.6 — the hunger multiplier is
constant (1) for satisfactions at or above 0.5, so the value does not
strictly increase anywhere hunger drops within [0.5, 0.9]. -/
theorem subjective_value_food_constant_above_half :
    0 < catalogField "bread" (fun c => c.food_value) 0 ∧
    subjective_value (vWithHunger c6V (9/10)) "bread" 1 none =
      subjective_value (vWithHunger c6V (6/10)) "bread" 1 none := by
  constructor
  · simp [catalogField, ITEM_CATALOG, assocGet] <;> norm_num
  · have hssf9 : skill_supply_factor (vWithHunger c6V (9/10)) "bread" = 1 := by
      simp [skill_supply_factor]
    have hssf6 : skill_supply_factor (vWithHunger c6V (6/10)) "bread" = 1 := by
      simp [skill_supply_factor]
    have hb9 : subjective_value_base (vWithHunger c6V (9/10)) "bread" none = 29/20 := by
      simp [subjective_value_base, vWithHunger, c6V, catalogField, ITEM_CATALOG,
        assocGet, get_tool_type, NeedSystem.get, NeedSystem.with_satisfaction,
        NeedSystem.init, TRADE_VALUE_FOOD_HUNGRY_MULTIPLIER,
        TRADE_DIMINISHING_SURPLUS_FACTOR]
      norm_num
    have hb6 : subjective_value_base (vWithHunger c6V (6/10)) "bread" none = 29/20 := by
      simp [subjective_value_base, vWithHunger, c6V, catalogField, ITEM_CATALOG,
        assocGet, get_tool_type, NeedSystem.get, NeedSystem.with_satisfaction,
        NeedSystem.init, TRADE_VALUE_FOOD_HUNGRY_MULTIPLIER,
        TRADE_DIMINISHING_SURPLUS_FACTOR]
      norm_num
    unfold subjective_value
    rw [hssf9, hssf6, hb9, hb6]

-- =====================================================================
-- Claim C7 — the ambition rescaling never raises a requested quantity
-- =====================================================================

theorem rescaleRequesting_le (requesting : List (String × ℚ))
    (ov rv : ℝ) (amb : ℚ) :
    List.Forall₂ (fun (r0 : String × ℚ) (r : String × ℝ) =>
      r.1 = r0.1 ∧ r.2 ≤ (r0.2 : ℝ)) requesting (rescaleRequesting requesting ov rv amb) := by
  simp only [rescaleRequesting]
  split_ifs with h
  · rw [List.forall₂_map_right_iff]
    rw [List.forall₂_same]
    intro p hp
    exact ⟨rfl, min_le_right _ _⟩
  · rw [List.forall₂_map_right_iff]
    rw [List.forall₂_same]
    intro p hp
    exact ⟨rfl, le_refl _⟩

/-- C7: for every offer `generate_offer` returns, each requested quantity
after the ambition-driven value rescaling is at most the corresponding
quantity computed before that step (entry for entry, same item type), for
every ambition value — the `min(·, requesting[item])` clamp means the
"ambition markup" can never raise a requested amount. -/
theorem generate_offer_rescale_never_increases (villager partner : Villager)
    (villager_inv partner_inv_estimate : Inventory) (trust : ℚ)
    (off : GeneratedOffer)
    (hoff : generate_offer villager partner villager_inv partner_inv_estimate trust =
      some off) :
    ∃ parts, generateOfferParts villager partner villager_inv partner_inv_estimate =
        some parts ∧
      List.Forall₂ (fun (r0 : String × ℚ) (r : String × ℝ) =>
        r.1 = r0.1 ∧ r.2 ≤ (r0.2 : ℝ)) parts.2.1 off.requesting := by
  unfold generate_offer at hoff
  obtain ⟨parts, hp, hmap⟩ := Option.map_eq_some'.mp hoff
  refine ⟨parts, hp, ?_⟩
  have h2 := congrArg GeneratedOffer.requesting hmap
  rw [← h2]
  exact rescaleRequesting_le _ _ _ _

def c7V : Villager := { id := 0 }

def c7P : Villager := { id := 1 }

def c7Grain : Item := { item_type := "grain", quantity := 20 }

def c7Axe : Item :=
  { item_type := "stone_axe", quantity := 2, current_durability := 50, max_durability := 50 }

def c7VInv : Inventory := { items := [("grain", [c7Grain])], capacity := 200 }

def c7PInv : Inventory := { items := [("stone_axe", [c7Axe])], capacity := 200 }

def c7Off : GeneratedOffer :=
  { offering := [("grain", 45/8)], requesting := [("stone_axe", (1 : ℝ))],
    offerer_id := 0, target_id := 1 }

theorem generate_offer_rescale_never_increases_witness :
    ∃ parts, generateOfferParts c7V c7P c7VInv c7PInv = some parts ∧
      List.Forall₂ (fun (r0 : String × ℚ) (r : String × ℝ) =>
        r.1 = r0.1 ∧ r.2 ≤ (r0.2 : ℝ)) parts.2.1 c7Off.requesting := by
  have h1 : get_surplus c7V c7VInv = [("grain", 85/8)] := by
    have hmax : max (1/100 : ℚ) (4/5) = 4/5 := max_eq_right (by norm_num)
    simp [get_surplus, surplusLoop, c7VInv, c7Grain, catalogField, ITEM_CATALOG,
      assocGet, get_tool_type, BASE_DAILY_FOOD_NEED, TRADE_SURPLUS_DAYS_THRESHOLD, hmax]
    norm_num
  have h2 : get_deficits c7P c7PInv =
      [("grain", 45/8), ("stone_knife", 1), ("wooden_spear", 1), ("hoe", 1),
        ("fishing_rod", 1)] := by
    have hdur : (0 : ℚ) < 50 := by norm_num
    simp [get_deficits, c7P, c7PInv, c7Axe, Inventory.total_food_value, food_items,
      Inventory.has_tool_type, Inventory.get_best_tool, betterTool, Item.tool_type,
      Item.food_value, Inventory.has, Inventory.total_of, firstCatalogItemOfToolType,
      catalogField, ITEM_CATALOG, assocGet, get_tool_type, NeedSystem.get,
      NeedSystem.init, BASE_DAILY_FOOD_NEED, TRADE_DEFICIT_DAYS_THRESHOLD, hdur]
    norm_num
  have h3 : get_deficits c7V c7VInv =
      [("stone_axe", 1), ("stone_knife", 1), ("wooden_spear", 1), ("hoe", 1),
        ("fishing_rod", 1)] := by
    simp [get_deficits, c7V, c7VInv, c7Grain, Inventory.total_food_value, food_items,
      Inventory.has_tool_type, Inventory.get_best_tool, betterTool, Item.tool_type,
      Item.food_value, Inventory.has, Inventory.total_of, firstCatalogItemOfToolType,
      catalogField, ITEM_CATALOG, assocGet, get_tool_type, NeedSystem.get,
      NeedSystem.init, BASE_DAILY_FOOD_NEED, TRADE_DEFICIT_DAYS_THRESHOLD]
    norm_num
  have hbg : subjective_value_base c7P "grain" (some c7PInv) = 8/5 := by
    simp [subjective_value_base, c7P, c7PInv, c7Axe, catalogField, ITEM_CATALOG,
      assocGet, get_tool_type, NeedSystem.get, NeedSystem.init, Inventory.total_of,
      TRADE_VALUE_FOOD_HUNGRY_MULTIPLIER, TRADE_DIMINISHING_SURPLUS_FACTOR]
    norm_num
  have hsg : skill_supply_factor c7P "grain" = 1 := by
    simp [skill_supply_factor]
  have hsv1 : subjective_value c7P "grain" (45/8) (some c7PInv) = 9 := by
    unfold subjective_value
    rw [hbg, hsg]
    rw [max_eq_right (by push_cast; norm_num)]
    push_cast
    norm_num
  have hba : subjective_value_base c7V "stone_axe" (some c7VInv) = 3 := by
    simp [subjective_value_base, c7V, c7VInv, c7Grain, catalogField, ITEM_CATALOG,
      assocGet, get_tool_type, NeedSystem.get, NeedSystem.init, Inventory.total_of,
      Inventory.has_tool_type, Inventory.get_best_tool, betterTool, Item.tool_type,
      TRADE_VALUE_FOOD_HUNGRY_MULTIPLIER, TRADE_DIMINISHING_SURPLUS_FACTOR]
    norm_num
  have hsa : skill_supply_factor c7V "stone_axe" = 1 := by
    simp [skill_supply_factor]
  have hsv2 : subjective_value c7V "stone_axe" 1 (some c7VInv) = 3 := by
    unfold subjective_value
    rw [hba, hsa]
    rw [max_eq_right (by push_cast; norm_num)]
    push_cast
    norm_num
  have ht1 : c7PInv.total_of "stone_axe" = 2 := by
    simp [Inventory.total_of, c7PInv, c7Axe, assocGet]
  have ht2 : c7PInv.total_of "stone_knife" = 0 := by
    simp [Inventory.total_of, c7PInv, assocGet]
  have ht3 : c7PInv.total_of "wooden_spear" = 0 := by
    simp [Inventory.total_of, c7PInv, assocGet]
  have ht4 : c7PInv.total_of "hoe" = 0 := by
    simp [Inventory.total_of, c7PInv, assocGet]
  have ht5 : c7PInv.total_of "fishing_rod" = 0 := by
    simp [Inventory.total_of, c7PInv, assocGet]
  have hmin1 : min (85/8 : ℚ) (45/8) = 45/8 := min_eq_right (by norm_num)
  have hmin2 : min (1 : ℚ) (2 * (2 : ℚ)⁻¹) = 1 := by norm_num
  have hc1 : ((100 : ℚ))⁻¹ < 45/8 := by norm_num
  have hc2 : ((100 : ℚ))⁻¹ < 1 := by norm_num
  have hc3 : ¬ ((9 : ℝ) < (10 : ℝ)⁻¹) := by norm_num
  have hc4 : (0 : ℚ) < 2 := by norm_num
  have hq1 : ((100 : ℚ))⁻¹ < 85/8 := by norm_num
  have hq2 : ((100 : ℚ))⁻¹ < 2 * (2 : ℚ)⁻¹ := by norm_num
  have hparts : generateOfferParts c7V c7P c7VInv c7PInv =
      some ([("grain", 45/8)], [("stone_axe", 1)], (9 : ℝ), (3 : ℝ)) := by
    simp [generateOfferParts, h1, h2, h3, hsv1, hsv2, ht1, ht2, ht3, ht4, ht5,
      hmin1, hmin2, hc1, hc2, hc3, hc4, hq1, hq2, assocGet]
  have hres : rescaleRequesting [("stone_axe", 1)] (9 : ℝ) (3 : ℝ) 50 =
      [("stone_axe", (1 : ℝ))] := by
    simp only [rescaleRequesting]
    rw [if_pos ⟨by norm_num, by norm_num⟩]
    simp [TRADE_PERSONALITY_MARGIN]
    push_cast
    norm_num [min_def]
  have hoff : generate_offer c7V c7P c7VInv c7PInv 0 = some c7Off := by
    unfold generate_offer
    rw [hparts]
    show some ({ offering := [("grain", 45/8)], requesting := rescaleRequesting [("stone_axe", 1)] (9 : ℝ) (3 : ℝ) c7V.traits.ambition, offerer_id := c7V.id, target_id := c7P.id } : GeneratedOffer) = some c7Off
    rw [show (c7V.traits.ambition : ℚ) = 50 from rfl, hres]
    rfl
  exact generate_offer_rescale_never_increases c7V c7P c7VInv c7PInv 0 c7Off hoff

end VillageSim
